import Mathlib

/-!
Shallow embedding of the `ha-peplink` integration's API client
(`custom_components/peplink/api.py`) and polling coordinator
(`custom_components/peplink/coordinator.py`).

JSON values are modelled by an inductive `Json`; Python numbers (int and
float alike) are modelled as rationals. Python `dict`s decoded from JSON
are modelled as association lists in insertion order; `dict.get` is
first-match lookup and dict assignment is replace-or-append (`insertA`).
Functions that can raise an unhandled Python exception (`AttributeError`,
`TypeError`, ...) return an `Option`/`Except` whose failure constructor
(`PErr.pyErr`) stands for that exception.
-/

inductive Json where
  | null : Json
  | bool (b : Bool) : Json
  | num (q : ℚ) : Json
  | str (s : String) : Json
  | arr (elems : List Json) : Json
  | obj (entries : List (String × Json)) : Json
  deriving Repr

/-- Python truthiness of a decoded JSON value. -/
def Json.truthy : Json → Bool
  | .null => false
  | .bool b => b
  | .num q => q != 0
  | .str s => s ≠ ""
  | .arr l => !l.isEmpty
  | .obj l => !l.isEmpty

/-- `d.get(k)` on a decoded JSON object (first-match association-list lookup). -/
def jGet (es : List (String × Json)) (k : String) : Option Json :=
  (es.find? (fun p => p.1 == k)).map (·.2)

/-- `d.get(k, default)`. -/
def jGetD (es : List (String × Json)) (k : String) (d : Json) : Json :=
  (jGet es k).getD d

/-- Python `a or b` where `a` is a lookup result (`None` when absent). -/
def pyOr (a : Option Json) (b : Json) : Json :=
  match a with
  | some j => if j.truthy then j else b
  | none => b

/-- Python `a or b` with both sides optional (e.g. `d.get(x) or d.get(y)`),
also used for `x or None`. -/
def pyOrOpt (a b : Option Json) : Option Json :=
  match a with
  | some j => if j.truthy then some j else b
  | none => b

/-- ASCII whitespace stripped by Python's `int()`/`float()`/`str.strip()`. -/
def pyWsChar (c : Char) : Bool :=
  c == ' ' || c == '\t' || c == '\n' || c == '\r' || c == '\x0b' || c == '\x0c'

/-- Strip leading and trailing whitespace from a character list. -/
def trimChars (l : List Char) : List Char :=
  ((l.dropWhile pyWsChar).reverse.dropWhile pyWsChar).reverse

def digitVal? (c : Char) : Option Nat :=
  if '0' ≤ c ∧ c ≤ '9' then some (c.toNat - '0'.toNat) else none

/-- Decimal digits to a number; empty digit strings allowed (used for the
fractional side of `float("1.")`). -/
def natOfDigitsAllowEmpty? (cs : List Char) : Option Nat :=
  cs.foldlM (fun acc c => (digitVal? c).map (fun d => acc * 10 + d)) 0

/-- Decimal digits to a number; at least one digit required. -/
def natOfDigits? (cs : List Char) : Option Nat :=
  if cs.isEmpty then none else natOfDigitsAllowEmpty? cs

/-- Split a character list on a separator character. -/
def splitOnChar (sep : Char) (l : List Char) : List (List Char) :=
  l.foldr (fun c acc =>
    match acc with
    | cur :: done => if c == sep then [] :: cur :: done else (c :: cur) :: done
    | [] => [[c]]) [[]]

/-- Python `int(s)` on a string: strip whitespace, optional sign, decimal
digits; `none` when the parse fails. (Underscore separators and non-ASCII
digits are not modelled.) -/
def pyStrInt? (s : String) : Option Int :=
  match trimChars s.data with
  | '-' :: rest => (natOfDigits? rest).map (fun n => -(n : Int))
  | '+' :: rest => (natOfDigits? rest).map (fun n => (n : Int))
  | t => (natOfDigits? t).map (fun n => (n : Int))

/-- Truncation of a rational toward zero, as Python `int(float)`. -/
def ratTrunc (q : ℚ) : Int :=
  if 0 ≤ q then ⌊q⌋ else ⌈q⌉

/-- Python `int(v)` on a decoded JSON value; `none` when Python raises
(`TypeError`/`ValueError`).  This is exactly `_to_int` from `api.py`, which
wraps `int(value)` in a `try` and returns `None` on failure. -/
def pyInt? : Json → Option Int
  | .num q => some (ratTrunc q)
  | .bool b => some (if b then 1 else 0)
  | .str s => pyStrInt? s
  | _ => none

/-- Parse a plain decimal string `[sign]digits[.digits]` as a rational.
(Exponents, `inf` and `nan` forms of Python `float()` are not modelled;
no claim exercises them.) -/
def parseDecimal? (s : String) : Option ℚ :=
  let t := trimChars s.data
  let core :=
    match t with
    | '-' :: rest => rest
    | '+' :: rest => rest
    | l => l
  let sign : ℚ :=
    match t with
    | '-' :: _ => -1
    | _ => 1
  match splitOnChar '.' core with
  | [w] => (natOfDigits? w).map (fun n => sign * n)
  | [w, f] =>
      if w.isEmpty && f.isEmpty then none
      else
        match natOfDigitsAllowEmpty? w, natOfDigitsAllowEmpty? f with
        | some wn, some fn =>
            some (sign * (wn + (fn : ℚ) / ((10 : ℚ) ^ f.length)))
        | _, _ => none
  | _ => none

/-- Python `float(v)` on a decoded JSON value; `none` when Python raises. -/
def pyFloat? : Json → Option ℚ
  | .num q => some q
  | .bool b => some (if b then 1 else 0)
  | .str s => parseDecimal? s
  | _ => none

/-- Python `v == "lit"` for a lookup result. -/
def optIsStr (o : Option Json) (lit : String) : Bool :=
  match o with
  | some (.str s) => s == lit
  | _ => false

/-- Python `v == n` for a lookup result against a numeric literal
(`True == 1`, `401 == 401.0` are both `True` in Python). -/
def optIsNum (o : Option Json) (n : ℚ) : Bool :=
  match o with
  | some (.num q) => q == n
  | some (.bool b) => (if b then (1 : ℚ) else 0) == n
  | _ => false

/-- Is the lookup result a JSON object (`isinstance(v, dict)`)? -/
def Json.isObjB : Json → Bool
  | .obj _ => true
  | _ => false

/-- Dict assignment `m[k] = v` on an association list keyed by `Int`:
replace in place when the key exists, append otherwise (Python dict
insertion-order semantics). -/
def insertA {α : Type} (m : List (Int × α)) (k : Int) (v : α) : List (Int × α) :=
  if m.any (fun p => p.1 == k) then
    m.map (fun p => if p.1 == k then (k, v) else p)
  else m ++ [(k, v)]

/-- Dict assignment on an association list keyed by `String`. -/
def insertS {α : Type} (m : List (String × α)) (k : String) (v : α) : List (String × α) :=
  if m.any (fun p => p.1 == k) then
    m.map (fun p => if p.1 == k then (k, v) else p)
  else m ++ [(k, v)]

/-- `m.get(k)` on an `Int`-keyed association list. -/
def lookupA {α : Type} (m : List (Int × α)) (k : Int) : Option α :=
  (m.find? (fun p => p.1 == k)).map (·.2)

/-- Error taxonomy of `api.py` plus a constructor for unhandled Python
exceptions escaping the client code. -/
inductive PErr where
  | authErr  -- PeplinkAuthError
  | connErr  -- PeplinkConnectionError
  | apiErr   -- PeplinkApiError
  | pyErr    -- an unhandled Python exception (AttributeError/TypeError/...)
  deriving Repr, DecidableEq

/-- What `_request` hands back to an endpoint method: the decoded JSON
body, or the raw text when the body is not valid JSON. -/
inductive ReqResult where
  | json (j : Json)
  | text (s : String)
  deriving Repr

/-! ## Data model (`models.py`)

Fields that the Python code stores without coercing are typed `Json`
(Python would accept any decoded value there); fields passed through
`_to_int`/`float()` are `Option Int`/`Option ℚ`. -/

def WAN_TYPE_CELLULAR : String := "cellular"
def WAN_TYPE_ETHERNET : String := "ethernet"
def WAN_TYPE_WIFI : String := "wifi"
def WAN_TYPE_VWAN : String := "vwan"
def WAN_TYPE_UNKNOWN : String := "unknown"

def MAX_SIM_SLOTS : Int := 5

/-- `TOKEN_REFRESH_SECS = 46 * 60 * 60` from `const.py`. -/
def TOKEN_REFRESH_SECS : ℚ := 46 * 60 * 60

structure CellularInfo where
  module_name : Json
  signal_strength : Option Int
  signal_quality : Option Int
  carrier : Option Json
  network_type : Option Json
  band : Option Json
  carrier_aggregation : Bool
  bands : List Json
  rssi_dbm : Option Int
  rsrp_dbm : Option Int
  deriving Repr

structure WifiInfo where
  ssid : Option Json
  frequency : Option Json
  signal_strength : Option Int
  channel : Option Int
  deriving Repr

structure SimSlotInfo where
  slot_id : Int
  enabled : Bool
  has_usage_tracking : Bool
  usage_mb : Option Int
  limit_mb : Option Int
  percent : Option Int
  start_date : Option Json
  deriving Repr

structure WanConnection where
  conn_id : Int
  name : Json
  wan_type : String
  enabled : Bool
  message : Option Json
  priority : Option Int
  uptime : Option Int
  ip : Option Json
  status_led : Option Json
  cellular : Option CellularInfo := none
  wifi : Option WifiInfo := none
  sim_slot_count : Int := 0
  download_rate_mbps : Option ℚ := none
  upload_rate_mbps : Option ℚ := none
  deriving Repr

structure WanUsage where
  conn_id : Int
  enabled : Bool
  usage_mb : Option Int
  limit_mb : Option Int
  percent : Option Int
  unit : Option Json
  start_date : Option Json
  sim_slots : Option (List (Int × SimSlotInfo)) := none
  deriving Repr

structure FanInfo where
  fan_id : Int
  name : String
  speed_rpm : Option Int := none
  speed_percent : Option Int := none
  status : String := "normal"
  deriving Repr, DecidableEq

structure SystemDiagnostics where
  temperature : Option ℚ
  temperature_threshold : Option ℚ
  fans : List FanInfo := []
  deriving Repr, DecidableEq

structure DeviceInfo where
  serial_number : Json
  model : Json
  hardware_version : Option Json := none
  deriving Repr

structure VpnProfile where
  profile_id : String
  name : Json
  vpn_type : Json
  status : Json
  deriving Repr

structure LocationInfo where
  latitude : Option ℚ
  longitude : Option ℚ
  altitude : Option ℚ
  speed : Option ℚ
  heading : Option ℚ
  accuracy : Option ℚ
  timestamp : Option Json
  deriving Repr

/-! ## Endpoint decoders (`api.py` parsing helpers) -/

/-- Does `pat` start `l`? -/
def beginsWith : List Char → List Char → Bool
  | [], _ => true
  | _ :: _, [] => false
  | a :: as, b :: bs => a == b && beginsWith as bs

/-- Python `pat in text` substring containment on character lists. -/
def containsSub (pat : List Char) : List Char → Bool
  | [] => pat.isEmpty
  | c :: rest => beginsWith pat (c :: rest) || containsSub pat rest

/-- `str.lower()` (ASCII; the names compared against are ASCII). -/
def lowerChars (l : List Char) : List Char := l.map Char.toLower

/-- `_determine_wan_type`; `none` models the `AttributeError` Python raises
in `(data.get("name") or "").lower()` when `name` holds a truthy non-string. -/
def determine_wan_type (data : List (String × Json)) : Option String :=
  if (jGet data "cellular").isSome then some WAN_TYPE_CELLULAR
  else if (jGet data "wifi").isSome then some WAN_TYPE_WIFI
  else
    match pyOr (jGet data "name") (.str "") with
    | .str s =>
        let name := lowerChars s.data
        if containsSub WAN_TYPE_VWAN.data name then some WAN_TYPE_VWAN
        else if containsSub WAN_TYPE_ETHERNET.data name then some WAN_TYPE_ETHERNET
        else some WAN_TYPE_UNKNOWN
    | _ => none

/-- Python iteration `for x in v` over `v = d.get(k) or []`: a list yields
its elements, a string its characters, a dict its keys; a truthy number or
boolean raises `TypeError` (`none`). -/
def pyIterable? : Json → Option (List Json)
  | .null => none
  | .bool _ => none
  | .num _ => none
  | .str s => some (s.toList.map (fun c => .str (String.mk [c])))
  | .arr l => some l
  | .obj es => some (es.map (fun p => .str p.1))

/-- Body of the `rat[].band[]` scan of `_parse_cellular_info` for one band
object: `(bands so far, rssi so far, rsrp so far)` threaded through. -/
def scanBand (acc : List Json × Option Int × Option Int) (band : Json) :
    List Json × Option Int × Option Int :=
  match band with
  | .obj bes =>
      let (bands, rssi, rsrp) := acc
      let bands :=
        match jGet bes "name" with
        | some n => if n.truthy then bands ++ [n] else bands
        | none => bands
      match pyOr (jGet bes "signal") (.obj []) with
      | .obj ses =>
          let rssi :=
            match rssi, jGet ses "rssi" with
            | none, some v => pyInt? v
            | r, _ => r
          let rsrp :=
            match rsrp, jGet ses "rsrp" with
            | none, some v => pyInt? v
            | r, _ => r
          (bands, rssi, rsrp)
      | _ => (bands, rssi, rsrp)
  | _ => acc

/-- `_parse_cellular_info`; `none` models a `TypeError` from iterating a
non-iterable `rat`/`band` value. -/
def parse_cellular_info (data : List (String × Json)) : Option CellularInfo := do
  let signal : Option Int :=
    match jGet data "signalStrength" with
    | some v => pyInt? v
    | none =>
      match jGet data "signalLevel" with
      | some v => pyInt? v
      | none =>
        match jGet data "signal" with
        | some (.obj ses) => (jGet ses "level").bind pyInt?
        | _ => none
  let carrier : Option Json :=
    match jGet data "carrier" with
    | some (.obj ces) => jGet ces "name"
    | some j => if j.truthy then some j else none
    | none => none
  let network := pyOrOpt (jGet data "networkType") (jGet data "mobileType")
  let rats ← pyIterable? (pyOr (jGet data "rat") (.arr []))
  let init : List Json × Option Int × Option Int := ([], none, none)
  let scanned ← rats.foldlM (m := Option) (fun acc rat =>
    match rat with
    | .obj res => do
        let bandsList ← pyIterable? (pyOr (jGet res "band") (.arr []))
        pure (bandsList.foldl scanBand acc)
    | _ => pure acc) init
  let (bands, rssi, rsrp) := scanned
  pure {
    module_name := pyOr (jGet data "moduleName") (.str "Cellular Modem")
    signal_strength := signal
    signal_quality :=
      match jGet data "signalQuality" with
      | some v => pyInt? v
      | none => none
    carrier := carrier
    network_type := network
    band := pyOrOpt (jGet data "band") none
    carrier_aggregation := (jGetD data "carrierAggregation" (.bool false)).truthy
    bands := bands
    rssi_dbm := rssi
    rsrp_dbm := rsrp }

/-- `_parse_wifi_info`. -/
def parse_wifi_info (data : List (String × Json)) : WifiInfo :=
  let signal : Option Int :=
    match jGet data "signalStrength" with
    | some v => pyInt? v
    | none =>
      match jGet data "signal" with
      | some (.obj ses) => (jGet ses "level").bind pyInt?
      | _ => none
  { ssid := pyOrOpt (jGet data "ssid") none
    frequency := pyOrOpt (jGet data "frequency") none
    signal_strength := signal
    channel :=
      match jGet data "channel" with
      | some v => pyInt? v
      | none => none }

/-- `_parse_wan_connection`; `none` models an unhandled Python exception
inside the per-connection parse. -/
def parse_wan_connection (conn_id : Int) (data : List (String × Json)) :
    Option WanConnection := do
  let wan_type ← determine_wan_type data
  let enabled := (jGetD data "enable" (.bool false)).truthy
  let message := pyOrOpt (jGet data "message") (jGet data "status")
  let cellular ←
    if wan_type = WAN_TYPE_CELLULAR then
      match jGet data "cellular" with
      | some (.obj ces) => (parse_cellular_info ces).map some
      | _ => some none
    else some none
  let wifi : Option WifiInfo :=
    if wan_type = WAN_TYPE_WIFI then
      match jGet data "wifi" with
      | some (.obj wes) => some (parse_wifi_info wes)
      | _ => none
    else none
  pure {
    conn_id := conn_id
    name := pyOr (jGet data "name") (.str s!"WAN {conn_id}")
    wan_type := wan_type
    enabled := enabled
    message := message
    priority :=
      match jGet data "priority" with
      | some v => pyInt? v
      | none => none
    uptime :=
      match jGet data "uptime" with
      | some v => pyInt? v
      | none => none
    ip := pyOrOpt (jGet data "ip") none
    status_led := pyOrOpt (jGet data "statusLed") none
    cellular := cellular
    wifi := wifi }

/-- `_parse_sim_slot`. -/
def parse_sim_slot (slot_id : Int) (data : List (String × Json)) : SimSlotInfo :=
  { slot_id := slot_id
    enabled := (jGetD data "enable" (.bool false)).truthy
    has_usage_tracking := (jGet data "usage").isSome
    usage_mb :=
      match jGet data "usage" with
      | some v => pyInt? v
      | none => none
    limit_mb :=
      match jGet data "limit" with
      | some v => pyInt? v
      | none => none
    percent :=
      match jGet data "percent" with
      | some v => pyInt? v
      | none => none
    start_date := pyOrOpt (jGet data "start") none }

/-- `has_nested_sims = any(_to_int(k) is not None for k in data)` from
`_parse_wan_usage`.  Keys of a decoded JSON object are strings, so
`_to_int(k)` is `int(k)` on a string. -/
def hasNestedSims (data : List (String × Json)) : Bool :=
  data.any (fun p => (pyStrInt? p.1).isSome)

/-- The `sim_slots` loop of `_parse_wan_usage`. -/
def buildSimSlots : List (String × Json) → List (Int × SimSlotInfo) →
    List (Int × SimSlotInfo)
  | [], acc => acc
  | (k, v) :: rest, acc =>
      match pyStrInt? k, v with
      | some slot_id, .obj ses =>
          buildSimSlots rest (insertA acc slot_id (parse_sim_slot slot_id ses))
      | _, _ => buildSimSlots rest acc

/-- `_parse_wan_usage`. -/
def parse_wan_usage (conn_id : Int) (data : List (String × Json)) : WanUsage :=
  let nested := hasNestedSims data
  { conn_id := conn_id
    enabled := (jGetD data "enable" (.bool false)).truthy
    usage_mb :=
      match (!nested), jGet data "usage" with
      | true, some v => pyInt? v
      | _, _ => none
    limit_mb :=
      match (!nested), jGet data "limit" with
      | true, some v => pyInt? v
      | _, _ => none
    percent :=
      match (!nested), jGet data "percent" with
      | true, some v => pyInt? v
      | _, _ => none
    unit := if nested then none else jGet data "unit"
    start_date := if nested then none else jGet data "start"
    sim_slots := if nested then some (buildSimSlots data []) else none }

/-! ## Endpoint methods (`api.py`), as functions of the `_request` outcome

Each `get_*` method below takes the outcome of `self._request(...)` —
either a raised error or the decoded body — and performs exactly the
response handling of the Python method. -/

/-- The `for key, conn_data in response.items()` loop of `get_wan_status`. -/
def parseWanEntries : List (String × Json) → List (Int × WanConnection) →
    Except PErr (List (Int × WanConnection))
  | [], acc => .ok acc
  | (k, v) :: rest, acc =>
      match pyStrInt? k, v with
      | some cid, .obj ces =>
          match parse_wan_connection cid ces with
          | some wc => parseWanEntries rest (insertA acc cid wc)
          | none => .error .pyErr
      | _, _ => parseWanEntries rest acc

/-- `get_wan_status`. -/
def get_wan_status (rr : Except PErr ReqResult) :
    Except PErr (List (Int × WanConnection)) :=
  match rr with
  | .error e => .error e
  | .ok (.text _) => .error .pyErr
  | .ok (.json (.obj es)) =>
      if !(optIsStr (jGet es "stat") "ok") then .error .apiErr
      else
        match jGetD es "response" (.obj []) with
        | .obj res => parseWanEntries res []
        | _ => .error .pyErr
  | .ok (.json _) => .error .pyErr

/-- The entry loop of `get_wan_usage`. -/
def parseUsageEntries : List (String × Json) → List (Int × WanUsage) →
    List (Int × WanUsage)
  | [], acc => acc
  | (k, v) :: rest, acc =>
      match pyStrInt? k, v with
      | some cid, .obj ues =>
          parseUsageEntries rest (insertA acc cid (parse_wan_usage cid ues))
      | _, _ => parseUsageEntries rest acc

/-- `get_wan_usage`. -/
def get_wan_usage (rr : Except PErr ReqResult) :
    Except PErr (List (Int × WanUsage)) :=
  match rr with
  | .error e => .error e
  | .ok (.text _) => .error .pyErr
  | .ok (.json (.obj es)) =>
      if !(optIsStr (jGet es "stat") "ok") then .error .apiErr
      else
        match jGetD es "response" (.obj []) with
        | .obj res => .ok (parseUsageEntries res [])
        | _ => .error .pyErr
  | .ok (.json _) => .error .pyErr

/-- `get_firmware_version`. -/
def get_firmware_version (rr : Except PErr ReqResult) : Except PErr Json :=
  match rr with
  | .error e => .error e
  | .ok (.text _) => .error .pyErr
  | .ok (.json (.obj es)) =>
      if !(optIsStr (jGet es "stat") "ok") then .error .apiErr
      else
        match jGetD es "response" (.obj []) with
        | .obj res =>
            let firstInUse : Option (List (String × Json)) := res.findSome? (fun p =>
              match p.2 with
              | .obj ees =>
                  if (jGetD ees "inUse" (.bool false)).truthy then some ees else none
              | _ => none)
            let version : Option Json := firstInUse.bind (fun ees => jGet ees "version")
            let versionTruthy := match version with
              | some v => v.truthy
              | none => false
            let version : Option Json :=
              if versionTruthy then version
              else
                match jGetD res "1" (.obj []) with
                | .obj fes => jGet fes "version"
                | _ => none
            .ok (pyOr version (.str "unknown"))
        | _ => .error .pyErr
  | .ok (.json _) => .error .pyErr

/-- `get_connected_devices_count`. -/
def get_connected_devices_count (rr : Except PErr ReqResult) : Except PErr Int :=
  match rr with
  | .error e => .error e
  | .ok (.text _) => .error .pyErr
  | .ok (.json (.obj es)) =>
      if !(optIsStr (jGet es "stat") "ok") then .error .apiErr
      else
        let resp := jGetD es "response" (.obj [])
        let lst :=
          match resp with
          | .obj res => jGetD res "list" (.arr [])
          | _ => .arr []
        match lst with
        | .arr l => .ok (l.length : Int)
        | _ => .ok 0
  | .ok (.json _) => .error .pyErr

/-- The profile loop of `get_pep_vpn_profiles`. -/
def buildVpnProfiles : List (String × Json) → List (String × (Json × Json × Json)) →
    List (String × (Json × Json × Json))
  | [], acc => acc
  | (k, v) :: rest, acc =>
      match v with
      | .obj oes =>
          buildVpnProfiles rest (insertS acc k
            (jGetD oes "name" (.str k), jGetD oes "type" (.str ""),
             jGetD oes "status" (.str "unknown")))
      | _ => buildVpnProfiles rest acc

/-- `get_pep_vpn_profiles`: returns `{profile_id: (name, type, status)}`. -/
def get_pep_vpn_profiles (rr : Except PErr ReqResult) :
    Except PErr (List (String × (Json × Json × Json))) :=
  match rr with
  | .error e => .error e
  | .ok (.text _) => .error .pyErr
  | .ok (.json (.obj es)) =>
      if !(optIsStr (jGet es "stat") "ok") then .error .apiErr
      else
        let resp := jGetD es "response" (.obj [])
        let profiles :=
          match resp with
          | .obj res => jGetD res "profile" (.obj [])
          | _ => .obj []
        match profiles with
        | .obj pes => .ok (buildVpnProfiles pes [])
        | _ => .ok []
  | .ok (.json _) => .error .pyErr

/-- `float(t) if t is not None else None`, where a failing `float()` is an
unhandled exception. -/
def pyFloatE : Option Json → Except PErr (Option ℚ)
  | none => .ok none
  | some .null => .ok none
  | some v =>
      match pyFloat? v with
      | some q => .ok (some q)
      | none => .error .pyErr

/-- `int(raw) if raw and int(raw) > 0 else None` from the fan loop. -/
def fanSpeedVal : Option Json → Except PErr (Option Int)
  | none => .ok none
  | some v =>
      if v.truthy then
        match pyInt? v with
        | some n => .ok (if n > 0 then some n else none)
        | none => .error .pyErr
      else .ok none

/-- The empty `SystemDiagnostics(temperature=None, temperature_threshold=None)`
sentinel returned by `get_system_diagnostics` on failure. -/
def emptyDiagnostics : SystemDiagnostics := ⟨none, none, []⟩

/-- `get_system_diagnostics`.  `PeplinkConnectionError` and `PeplinkApiError`
from `_request` are swallowed and the empty sentinel returned; any other
raised error (notably `PeplinkAuthError`) propagates. -/
def get_system_diagnostics (rr : Except PErr ReqResult) :
    Except PErr SystemDiagnostics :=
  match rr with
  | .error .connErr => .ok emptyDiagnostics
  | .error .apiErr => .ok emptyDiagnostics
  | .error e => .error e
  | .ok (.text _) => .ok emptyDiagnostics
  | .ok (.json (.obj es)) =>
      if !(optIsStr (jGet es "stat") "ok") then .ok emptyDiagnostics
      else
        match pyOr (jGet es "response") (.obj es) with
        | .obj res => do
            let thermalPair ←
              match jGetD res "thermalSensor" (.arr []) with
              | .arr (first :: _) =>
                  match first with
                  | .obj tes => do
                      let t ← pyFloatE (jGet tes "temperature")
                      let thr ← pyFloatE (jGet tes "threshold")
                      pure (t, thr)
                  | _ => pure ((none : Option ℚ), (none : Option ℚ))
              | _ => pure ((none : Option ℚ), (none : Option ℚ))
            let fans ←
              match jGetD res "fanSpeed" (.arr []) with
              | .arr fanArr =>
                  fanArr.enum.foldlM (m := Except PErr)
                    (fun fans p =>
                      match p.2 with
                      | .obj fes => do
                          let rpm ← fanSpeedVal (jGet fes "value")
                          let pct ← fanSpeedVal (jGet fes "percentage")
                          let active := (jGetD fes "active" (.bool false)).truthy
                          pure (fans ++ [{
                            fan_id := (p.1 : Int) + 1
                            name := s!"Fan {p.1 + 1}"
                            speed_rpm := rpm
                            speed_percent := pct
                            status := if active then "normal" else "off" : FanInfo}])
                      | _ => pure fans) []
              | _ => pure []
            pure { temperature := thermalPair.1
                   temperature_threshold := thermalPair.2
                   fans := fans }
        | _ => .error .pyErr
  | .ok (.json _) => .ok emptyDiagnostics

/-- The `DeviceInfo(serial_number="unknown", model="unknown")` sentinel. -/
def unknownDeviceInfo : DeviceInfo := ⟨.str "unknown", .str "unknown", none⟩

/-- `get_device_info`. -/
def get_device_info (rr : Except PErr ReqResult) : Except PErr DeviceInfo :=
  match rr with
  | .error .connErr => .ok unknownDeviceInfo
  | .error .apiErr => .ok unknownDeviceInfo
  | .error e => .error e
  | .ok (.text _) => .ok unknownDeviceInfo
  | .ok (.json (.obj es)) =>
      if !(optIsStr (jGet es "stat") "ok") then .ok unknownDeviceInfo
      else
        let resp := pyOr (jGet es "response") (.obj es)
        let deviceObj :=
          match resp with
          | .obj res => jGet res "device"
          | _ => none
        match deviceObj with
        | some (.obj des) =>
            .ok { serial_number := jGetD des "serialNumber" (.str "unknown")
                  model := jGetD des "model" (.str "unknown")
                  hardware_version :=
                    pyOrOpt (jGet des "hardwareRevision") (jGet des "hardwareVersion") }
        | _ => .ok unknownDeviceInfo
  | .ok (.json _) => .ok unknownDeviceInfo

/-- `(overall.get(k) or 0) / 1000.0`.  A truthy non-numeric value makes the
Python division raise (`True` divides fine since `bool` is an `int`). -/
def divKbps (o : Option Json) : Except PErr ℚ :=
  match pyOr o (.num 0) with
  | .num q => .ok (q / 1000)
  | .bool b => .ok ((if b then 1 else 0) / 1000)
  | _ => .error .pyErr

/-- The bandwidth entry loop of `get_traffic_stats`. -/
def parseTrafficEntries : List (String × Json) → List (Int × (ℚ × ℚ)) →
    Except PErr (List (Int × (ℚ × ℚ)))
  | [], acc => .ok acc
  | (k, v) :: rest, acc =>
      match pyStrInt? k, v with
      | some cid, .obj ces =>
          match jGetD ces "overall" (.obj []) with
          | .obj oes =>
              match divKbps (jGet oes "download") with
              | .error e => .error e
              | .ok dl =>
                  match divKbps (jGet oes "upload") with
                  | .error e => .error e
                  | .ok ul => parseTrafficEntries rest (insertA acc cid (dl, ul))
          | _ => parseTrafficEntries rest acc
      | _, _ => parseTrafficEntries rest acc

/-- `get_traffic_stats`: `{connId: (download_mbps, upload_mbps)}`. -/
def get_traffic_stats (rr : Except PErr ReqResult) :
    Except PErr (List (Int × (ℚ × ℚ))) :=
  match rr with
  | .error .connErr => .ok []
  | .error .apiErr => .ok []
  | .error e => .error e
  | .ok (.text _) => .ok []
  | .ok (.json (.obj es)) =>
      if !(optIsStr (jGet es "stat") "ok") then .ok []
      else
        match pyOr (jGet es "response") (.obj es) with
        | .obj res =>
            match jGetD res "bandwidth" (.obj []) with
            | .obj bes => parseTrafficEntries bes []
            | _ => .ok []
        | _ => .ok []
  | .ok (.json _) => .ok []

/-- `_opt_float` from `get_location`: `None` on absent/null, on a failed
`float()`, and on NaN (our rationals cannot encode NaN). -/
def optFloat (les : List (String × Json)) (k : String) : Option ℚ :=
  match jGet les k with
  | none => none
  | some .null => none
  | some v => pyFloat? v

/-- `get_location`: `none` is the normal "no fix" result, not an error. -/
def get_location (rr : Except PErr ReqResult) :
    Except PErr (Option LocationInfo) :=
  match rr with
  | .error .connErr => .ok none
  | .error .apiErr => .ok none
  | .error e => .error e
  | .ok (.text _) => .ok none
  | .ok (.json (.obj es)) =>
      if !(optIsStr (jGet es "stat") "ok") then .ok none
      else
        match jGet es "response" with
        | some (.obj res) =>
            match pyOr (jGet res "location") (.obj res) with
            | .obj les =>
                if (jGet les "latitude").isNone ∧ (jGet les "longitude").isNone then
                  .ok none
                else
                  .ok (some {
                    latitude := optFloat les "latitude"
                    longitude := optFloat les "longitude"
                    altitude := optFloat les "altitude"
                    speed := optFloat les "speed"
                    heading := optFloat les "heading"
                    accuracy := optFloat les "accuracy"
                    timestamp := jGet les "timestamp" })
            | _ => .ok none
        | _ => .ok none
  | .ok (.json _) => .ok none

/-! ## Auth session and request dispatcher (`api.py`)

The `asyncio.Lock` makes the whole body of `_ensure_connected` a critical
section, so every concurrent execution of auth flows is equivalent to some
sequential composition of complete `ensure_connected` calls; the model
below is that sequential semantics.  `time.monotonic()` is a parameter
`now`, held fixed across one operation. -/

/-- One transport-level outcome of an HTTP call: a raised
`aiohttp.ClientError`/timeout, or a response with status code,
`Set-Cookie` headers and body. -/
inductive HttpOutcome where
  | exn
  | resp (status : Nat) (setCookies : List String) (body : ReqResult)

/-- The credential fields of `PeplinkApiClient`. -/
structure AuthState where
  auth_cookie : Option String := none
  is_connected : Bool := false
  access_token : Option Json := none
  token_expires_at : ℚ := 0

/-- `_clear_auth_state`. -/
def clearAuth (_st : AuthState) : AuthState :=
  { auth_cookie := none, is_connected := false, access_token := none,
    token_expires_at := 0 }

inductive AuthMode where
  | userpass
  | token
  deriving Repr, DecidableEq

/-- Construction-time configuration of `PeplinkApiClient`. -/
structure ClientCfg where
  auth_mode : AuthMode
  username : String := ""
  password : String := ""
  client_id : String := ""
  client_secret : String := ""

/-- `is_authenticated`. -/
def is_authenticated (cfg : ClientCfg) (now : ℚ) (st : AuthState) : Bool :=
  match cfg.auth_mode with
  | .userpass => st.is_connected && st.auth_cookie.isSome
  | .token => st.access_token.isSome && decide (now < st.token_expires_at)

/-- The inner loop of the `pauth` cookie extraction in `_login`: first
`pauth=`-prefixed part of one `Set-Cookie` header. -/
def firstPauthPart (hdr : String) : Option String :=
  (splitOnChar ';' hdr.data).findSome? (fun part =>
    let p := trimChars part
    if beginsWith "pauth=".data p then some (String.mk (p.drop 6)) else none)

/-- The outer header loop: first header yielding a non-empty `pauth`
value.  (In the source an empty extracted value leaves the loop variable
falsy and scanning continues; since the caller only tests truthiness, the
first-non-empty semantics is observably identical.) -/
def extract_pauth (headers : List String) : Option String :=
  headers.findSome? (fun h =>
    match firstPauthPart h with
    | some v => if v = "" then none else some v
    | none => none)

/-- `_login`, as a function of the transport outcome of
`POST /api/login`.  Returns the updated state and the raised error, if
any. -/
def login (st : AuthState) (h : HttpOutcome) : AuthState × Except PErr Unit :=
  match h with
  | .exn => ({st with is_connected := false, auth_cookie := none}, .error .connErr)
  | .resp status cookies body =>
      if status = 401 then ({st with is_connected := false}, .error .authErr)
      else if status ≥ 400 then ({st with is_connected := false}, .error .connErr)
      else
        match body with
        | .text _ => (st, .error .connErr)
        | .json (.obj es) =>
            if !(optIsStr (jGet es "stat") "ok") then
              ({st with is_connected := false}, .error .authErr)
            else
              match extract_pauth cookies with
              | none => ({st with is_connected := false}, .error .authErr)
              | some p => ({st with auth_cookie := some p, is_connected := true}, .ok ())
        | .json _ => (st, .error .pyErr)

/-- `_grant_token`, as a function of the transport outcome of
`POST /api/auth.token.grant`.  The third component records whether a
network call was made (false only when client id/secret are missing, which
fails before any network activity). -/
def grant_token (client_id client_secret : String) (now : ℚ) (st : AuthState)
    (h : HttpOutcome) : AuthState × Except PErr Unit × Bool :=
  if client_id = "" ∨ client_secret = "" then (st, .error .authErr, false)
  else
    match h with
    | .exn => (clearAuth st, .error .connErr, true)
    | .resp status _ body =>
        if status = 401 then (clearAuth st, .error .authErr, true)
        else if status ≥ 400 then (clearAuth st, .error .connErr, true)
        else
          match body with
          | .text _ => (st, .error .connErr, true)
          | .json (.obj es) =>
              if !(optIsStr (jGet es "stat") "ok") then (clearAuth st, .error .authErr, true)
              else
                match pyOr (jGet es "response") (.obj []) with
                | .obj res =>
                    match pyOrOpt (jGet res "accessToken") (jGet es "accessToken") with
                    | some tok =>
                        if tok.truthy then
                          ({st with access_token := some tok,
                                    token_expires_at := now + TOKEN_REFRESH_SECS},
                           .ok (), true)
                        else (clearAuth st, .error .authErr, true)
                    | none => (clearAuth st, .error .authErr, true)
                | _ => (st, .error .pyErr, true)
          | .json _ => (st, .error .pyErr, true)

/-- `_ensure_connected(force)`: the entire body runs under `_auth_lock`.
The third component records whether a network login/token-grant call was
made. -/
def ensure_connected (cfg : ClientCfg) (force : Bool) (now : ℚ) (st : AuthState)
    (h : HttpOutcome) : AuthState × Except PErr Unit × Bool :=
  match cfg.auth_mode with
  | .userpass =>
      if st.is_connected && st.auth_cookie.isSome && !force then (st, .ok (), false)
      else
        let (st', r) := login st h
        (st', r, true)
  | .token =>
      if st.access_token.isSome && decide (now < st.token_expires_at) && !force then
        (st, .ok (), false)
      else grant_token cfg.client_id cfg.client_secret now st h

/-- The application-level re-auth marker
`isinstance(data, dict) and data.get("stat") == "fail" and data.get("code") == 401`. -/
def app_level_401 (j : Json) : Bool :=
  match j with
  | .obj es => optIsStr (jGet es "stat") "fail" && optIsNum (jGet es "code") 401
  | _ => false

/-- Environment of one `_request` call: transport responses for the API
request attempts, indexed by attempt number, and transport responses for
the login/token-grant calls, indexed by auth-call number. -/
structure ReqEnv where
  http : Nat → HttpOutcome
  auth : Nat → HttpOutcome

/-- Result of `_request` plus instrumentation counters. -/
structure ReqOutcome where
  state : AuthState
  result : Except PErr ReqResult
  reqAttempts : Nat
  authCalls : Nat

/-- The `for _attempt in range(2)` loop of `_request`; `fuel` is the
number of attempts left, `ri`/`ai` the request/auth call counters. -/
def request_attempts (cfg : ClientCfg) (env : ReqEnv) (now : ℚ) :
    Nat → AuthState → Nat → Nat → ReqOutcome
  | 0, st, ri, ai => ⟨st, .error .authErr, ri, ai⟩
  | fuel+1, st, ri, ai =>
      match env.http ri with
      | .exn => ⟨st, .error .connErr, ri+1, ai⟩
      | .resp status _ body =>
          if status = 401 then
            let st1 := clearAuth st
            match ensure_connected cfg true now st1 (env.auth ai) with
            | (st2, .error e, made) => ⟨st2, .error e, ri+1, if made then ai+1 else ai⟩
            | (st2, .ok _, made) =>
                request_attempts cfg env now fuel st2 (ri+1) (if made then ai+1 else ai)
          else if status ≥ 400 then ⟨st, .error .connErr, ri+1, ai⟩
          else
            match body with
            | .text s => ⟨st, .ok (.text s), ri+1, ai⟩
            | .json j =>
                if app_level_401 j then
                  let st1 := clearAuth st
                  match ensure_connected cfg true now st1 (env.auth ai) with
                  | (st2, .error e, made) => ⟨st2, .error e, ri+1, if made then ai+1 else ai⟩
                  | (st2, .ok _, made) =>
                      request_attempts cfg env now fuel st2 (ri+1) (if made then ai+1 else ai)
                else ⟨st, .ok (.json j), ri+1, ai⟩

/-- `_request`: initial non-forced `_ensure_connected`, then up to two
attempts. -/
def request (cfg : ClientCfg) (env : ReqEnv) (now : ℚ) (st : AuthState) : ReqOutcome :=
  match ensure_connected cfg false now st (env.auth 0) with
  | (st0, .error e, made0) => ⟨st0, .error e, 0, if made0 then 1 else 0⟩
  | (st0, .ok _, made0) =>
      request_attempts cfg env now 2 st0 0 (if made0 then 1 else 0)

/-! ## Polling coordinator (`coordinator.py`) -/

/-- Options fixed at coordinator construction. -/
structure CoordConfig where
  usage_interval : ℚ
  diag_interval : ℚ
  enable_vpn : Bool
  vpn_interval : ℚ
  enable_gps : Bool
  gps_interval : ℚ

/-- The mutable fields of `PeplinkCoordinator`: cadence timestamps, cached
slow data, health flags and discovered hardware. -/
structure CoordState where
  last_usage_poll : ℚ := 0
  last_diag_poll : ℚ := 0
  last_vpn_poll : ℚ := 0
  last_gps_poll : ℚ := 0
  wan_usage : List (Int × WanUsage) := []
  diagnostics : Option SystemDiagnostics := none
  device_info : Option DeviceInfo := none
  firmware_version : Option Json := none
  connected_devices : Option Int := none
  traffic_stats : List (Int × (ℚ × ℚ)) := []
  vpn_profiles : List (String × VpnProfile) := []
  location : Option LocationInfo := none
  api_connected : Bool := true
  authenticated : Bool := true
  data_healthy : Bool := true
  wan_connections : List (Int × WanConnection) := []

/-- `PeplinkData`, the snapshot published at the end of a tick. -/
structure PeplinkData where
  wan_connections : List (Int × WanConnection)
  wan_usage : List (Int × WanUsage)
  diagnostics : Option SystemDiagnostics
  device_info : Option DeviceInfo
  firmware_version : Option Json
  connected_devices : Option Int
  traffic_stats : List (Int × (ℚ × ℚ))
  vpn_profiles : List (String × VpnProfile)
  location : Option LocationInfo
  api_connected : Bool
  authenticated : Bool
  data_healthy : Bool

/-- One tick's network environment: the `_request` outcome each endpoint
call would see, plus the value of `api.is_authenticated()`. -/
structure TickEnv where
  wan_status_resp : Except PErr ReqResult
  is_auth : Bool
  usage_resp : Except PErr ReqResult
  diag_resp : Except PErr ReqResult
  device_resp : Except PErr ReqResult
  firmware_resp : Except PErr ReqResult
  clients_resp : Except PErr ReqResult
  traffic_resp : Except PErr ReqResult
  vpn_resp : Except PErr ReqResult
  location_resp : Except PErr ReqResult

/-- How a tick ends abnormally: `UpdateFailed` raised for an auth error,
`UpdateFailed` raised for a connection/API error, or an unhandled Python
exception escaping the tick. -/
inductive TickErr where
  | authFail
  | connFail
  | crash
  deriving Repr, DecidableEq

/-- Which slow polls the tick invoked. -/
structure Polled where
  usage : Bool
  diag : Bool
  vpn : Bool
  gps : Bool
  deriving Repr, DecidableEq

/-- `_poll_usage`: on any of the three client errors the cache keeps its
previous value; an unhandled exception (`.pyErr`) escapes the poll. -/
def poll_usage (st : CoordState) (env : TickEnv) : Except Unit CoordState :=
  match get_wan_usage env.usage_resp with
  | .ok v => .ok {st with wan_usage := v}
  | .error .pyErr => .error ()
  | .error _ => .ok st

/-- First `try` block of `_poll_diagnostics`: system diagnostics
(temperature + fans); wrapped in `except Exception`, so a failure keeps
the cached value. -/
def diag_step_sysdiag (st : CoordState) (env : TickEnv) : CoordState :=
  match get_system_diagnostics env.diag_resp with
  | .ok v => {st with diagnostics := some v}
  | .error _ => st

/-- Second `try` block: device info. -/
def diag_step_device (st : CoordState) (env : TickEnv) : CoordState :=
  match get_device_info env.device_resp with
  | .ok v => {st with device_info := some v}
  | .error _ => st

/-- Third `try` block: firmware version, fetched only while the cache is
`None`. -/
def diag_step_firmware (st : CoordState) (env : TickEnv) : CoordState :=
  match st.firmware_version with
  | none =>
      match get_firmware_version env.firmware_resp with
      | .ok v => {st with firmware_version := some v}
      | .error _ => st
  | some _ => st

/-- Fourth `try` block: connected client count. -/
def diag_step_clients (st : CoordState) (env : TickEnv) : CoordState :=
  match get_connected_devices_count env.clients_resp with
  | .ok v => {st with connected_devices := some v}
  | .error _ => st

/-- Fifth `try` block: traffic stats. -/
def diag_step_traffic (st : CoordState) (env : TickEnv) : CoordState :=
  match get_traffic_stats env.traffic_resp with
  | .ok v => {st with traffic_stats := v}
  | .error _ => st

/-- `_poll_diagnostics`: five isolated sub-fetches, each wrapped in
`except Exception` (so nothing escapes; each failing piece keeps its
cached value). -/
def poll_diagnostics (st : CoordState) (env : TickEnv) : CoordState :=
  diag_step_traffic
    (diag_step_clients
      (diag_step_firmware
        (diag_step_device
          (diag_step_sysdiag st env) env) env) env) env

/-- `_poll_vpn`. -/
def poll_vpn (st : CoordState) (env : TickEnv) : Except Unit CoordState :=
  match get_pep_vpn_profiles env.vpn_resp with
  | .ok raw =>
      .ok {st with vpn_profiles := raw.map (fun p =>
        (p.1, { profile_id := p.1, name := p.2.1, vpn_type := p.2.2.1,
                status := p.2.2.2 : VpnProfile }))}
  | .error .pyErr => .error ()
  | .error _ => .ok st

/-- `_poll_gps` (wrapped in `except Exception`: never escapes). -/
def poll_gps (st : CoordState) (env : TickEnv) : CoordState :=
  match get_location env.location_resp with
  | .ok v => {st with location := v}
  | .error _ => st

/-- The traffic-stats overlay loop: for each cached rate pair whose id is
present in `wan`, replace that record's rate fields (copy-on-write). -/
def mergeTraffic (wan : List (Int × WanConnection)) (ts : List (Int × (ℚ × ℚ))) :
    List (Int × WanConnection) :=
  ts.foldl (fun w p =>
    if w.any (fun q => q.1 == p.1) then
      w.map (fun q =>
        if q.1 == p.1 then
          (q.1, {q.2 with download_rate_mbps := some p.2.1,
                          upload_rate_mbps := some p.2.2})
        else q)
    else w) wan

/-- The SIM-slot-count enrichment loop: replace a fresh record's
`sim_slot_count` when discovery recorded a larger one. -/
def enrichSimSlots (wan : List (Int × WanConnection))
    (discovered : List (Int × WanConnection)) : List (Int × WanConnection) :=
  wan.map (fun p =>
    match lookupA discovered p.1 with
    | some disc =>
        if disc.sim_slot_count > p.2.sim_slot_count then
          (p.1, {p.2 with sim_slot_count := disc.sim_slot_count})
        else p
    | none => p)

/-- `_async_update_data`: one coordinator tick at monotonic time `now`.
Returns the coordinator state after the tick, the published snapshot or
the raised failure, and which slow polls were invoked. -/
def async_update_data (cfg : CoordConfig) (st : CoordState) (now : ℚ)
    (env : TickEnv) : CoordState × Except TickErr PeplinkData × Polled :=
  match get_wan_status env.wan_status_resp with
  | .error .authErr =>
      ({st with api_connected := true, authenticated := false, data_healthy := false},
       .error .authFail, ⟨false, false, false, false⟩)
  | .error .connErr =>
      ({st with api_connected := false, authenticated := false, data_healthy := false},
       .error .connFail, ⟨false, false, false, false⟩)
  | .error .apiErr =>
      ({st with api_connected := false, authenticated := false, data_healthy := false},
       .error .connFail, ⟨false, false, false, false⟩)
  | .error .pyErr => (st, .error .crash, ⟨false, false, false, false⟩)
  | .ok wan0 =>
      let st1 := {st with api_connected := true, authenticated := env.is_auth,
                          data_healthy := decide (wan0.length > 0)}
      let wan1 := enrichSimSlots wan0 st1.wan_connections
      let wan2 := mergeTraffic wan1 st1.traffic_stats
      let usageDue := decide (cfg.usage_interval ≤ now - st1.last_usage_poll)
      match (if usageDue then poll_usage st1 env else .ok st1) with
      | .error _ => (st1, .error .crash, ⟨usageDue, false, false, false⟩)
      | .ok st2a =>
          let st2 := if usageDue then {st2a with last_usage_poll := now} else st2a
          let diagDue := decide (cfg.diag_interval ≤ now - st2.last_diag_poll)
          let st3 :=
            if diagDue then {poll_diagnostics st2 env with last_diag_poll := now}
            else st2
          let wan3 := if diagDue then mergeTraffic wan2 st3.traffic_stats else wan2
          let vpnDue := cfg.enable_vpn && decide (cfg.vpn_interval ≤ now - st3.last_vpn_poll)
          match (if vpnDue then poll_vpn st3 env else .ok st3) with
          | .error _ => (st3, .error .crash, ⟨usageDue, diagDue, vpnDue, false⟩)
          | .ok st4a =>
              let st4 := if vpnDue then {st4a with last_vpn_poll := now} else st4a
              let gpsDue := cfg.enable_gps && decide (cfg.gps_interval ≤ now - st4.last_gps_poll)
              let st5 :=
                if gpsDue then {poll_gps st4 env with last_gps_poll := now}
                else st4
              (st5,
               .ok { wan_connections := wan3
                     wan_usage := st5.wan_usage
                     diagnostics := st5.diagnostics
                     device_info := st5.device_info
                     firmware_version := st5.firmware_version
                     connected_devices := st5.connected_devices
                     traffic_stats := st5.traffic_stats
                     vpn_profiles := st5.vpn_profiles
                     location := st5.location
                     api_connected := st5.api_connected
                     authenticated := st5.authenticated
                     data_healthy := st5.data_healthy },
               ⟨usageDue, diagDue, vpnDue, gpsDue⟩)

/-- A sequence of ticks: fold `async_update_data` over a list of
`(now, env)` pairs, keeping only the evolving coordinator state (the
scheduler keeps ticking whether or not a tick failed). -/
def run_ticks (cfg : CoordConfig) : CoordState → List (ℚ × TickEnv) → CoordState
  | st, [] => st
  | st, (now, env) :: rest =>
      run_ticks cfg (async_update_data cfg st now env).1 rest

/-! ## Helper lemmas -/

theorem insertA_existsKey {α : Type} (m : List (Int × α)) (k : Int) (v : α) (i : Int) :
    (∃ x, (i, x) ∈ insertA m k v) ↔ i = k ∨ ∃ x, (i, x) ∈ m := by
  unfold insertA
  split
  next h =>
    constructor
    · rintro ⟨x, hx⟩
      rw [List.mem_map] at hx
      obtain ⟨p, hp, hfp⟩ := hx
      by_cases hk : (p.1 == k) = true
      · rw [if_pos hk] at hfp
        left
        exact (Prod.mk.injEq .. ▸ hfp).1.symm
      · rw [if_neg hk] at hfp
        right
        exact ⟨x, hfp ▸ hp⟩
    · rintro (rfl | ⟨x, hx⟩)
      · rw [List.any_eq_true] at h
        obtain ⟨p, hp, hpk⟩ := h
        exact ⟨v, List.mem_map.mpr ⟨p, hp, by rw [if_pos hpk]⟩⟩
      · by_cases hik : i = k
        · subst hik
          rw [List.any_eq_true] at h
          obtain ⟨p, hp, hpk⟩ := h
          exact ⟨v, List.mem_map.mpr ⟨p, hp, by rw [if_pos hpk]⟩⟩
        · refine ⟨x, List.mem_map.mpr ⟨(i, x), hx, ?_⟩⟩
          rw [if_neg (by simpa using hik)]
  next h =>
    constructor
    · rintro ⟨x, hx⟩
      rw [List.mem_append] at hx
      rcases hx with hx | hx
      · exact Or.inr ⟨x, hx⟩
      · simp only [List.mem_singleton, Prod.mk.injEq] at hx
        exact Or.inl hx.1
    · rintro (rfl | ⟨x, hx⟩)
      · exact ⟨v, List.mem_append.mpr (Or.inr (List.mem_singleton.mpr rfl))⟩
      · exact ⟨x, List.mem_append.mpr (Or.inl hx)⟩

theorem insertA_mem_sub {α : Type} {m : List (Int × α)} {k : Int} {v : α} {p : Int × α}
    (hp : p ∈ insertA m k v) : p = (k, v) ∨ p ∈ m := by
  unfold insertA at hp
  split at hp
  · rw [List.mem_map] at hp
    obtain ⟨q, hq, hfq⟩ := hp
    by_cases hk : (q.1 == k) = true
    · rw [if_pos hk] at hfq
      exact Or.inl hfq.symm
    · rw [if_neg hk] at hfq
      exact Or.inr (hfq ▸ hq)
  · rw [List.mem_append] at hp
    rcases hp with hp | hp
    · exact Or.inr hp
    · exact Or.inl (List.mem_singleton.mp hp)

theorem foldl_keys_invariant {β : Type}
    (f : List (Int × WanConnection) → β → List (Int × WanConnection))
    (hf : ∀ w b, (f w b).map Prod.fst = w.map Prod.fst) :
    ∀ (l : List β) (w), (l.foldl f w).map Prod.fst = w.map Prod.fst := by
  intro l
  induction l with
  | nil => intro w; rfl
  | cons b rest ih =>
      intro w
      rw [List.foldl_cons, ih, hf]

theorem mergeTraffic_keys (wan : List (Int × WanConnection)) (ts : List (Int × (ℚ × ℚ))) :
    (mergeTraffic wan ts).map Prod.fst = wan.map Prod.fst := by
  unfold mergeTraffic
  apply foldl_keys_invariant
  intro w p
  split
  · rw [List.map_map]
    apply List.map_congr_left
    intro q _
    simp only [Function.comp_apply]
    split <;> rfl
  · rfl

theorem enrichSimSlots_keys (wan disc : List (Int × WanConnection)) :
    (enrichSimSlots wan disc).map Prod.fst = wan.map Prod.fst := by
  unfold enrichSimSlots
  rw [List.map_map]
  apply List.map_congr_left
  intro p _
  simp only [Function.comp_apply]
  cases lookupA disc p.1 with
  | none => rfl
  | some d =>
      by_cases h : d.sim_slot_count > p.2.sim_slot_count
      · simp [h]
      · simp [h]

/-- `_poll_usage` touches only the usage cache. -/
theorem poll_usage_frame {st st' : CoordState} {env : TickEnv}
    (h : poll_usage st env = .ok st') : ∃ v, st' = {st with wan_usage := v} := by
  refine ⟨st'.wan_usage, ?_⟩
  unfold poll_usage at h
  rcases hu : get_wan_usage env.usage_resp with e | v <;> rw [hu] at h
  · cases e
    case pyErr =>
      rw [show (match (Except.error PErr.pyErr : Except PErr (List (Int × WanUsage))) with
        | .ok v => Except.ok {st with wan_usage := v}
        | .error .pyErr => (Except.error () : Except Unit CoordState)
        | .error _ => Except.ok st) = (Except.error () : Except Unit CoordState) from rfl] at h
      exact Except.noConfusion h
    all_goals
      first
      | (change Except.ok st = Except.ok st' at h
         injection h with h2
         rw [← h2])
  · change Except.ok {st with wan_usage := v} = Except.ok st' at h
    injection h with h2
    rw [← h2]

theorem diag_step_sysdiag_frame (st : CoordState) (env : TickEnv) :
    ∃ d, diag_step_sysdiag st env = {st with diagnostics := d} := by
  unfold diag_step_sysdiag
  split
  · exact ⟨some _, rfl⟩
  · exact ⟨st.diagnostics, rfl⟩

theorem diag_step_device_frame (st : CoordState) (env : TickEnv) :
    ∃ d, diag_step_device st env = {st with device_info := d} := by
  unfold diag_step_device
  split
  · exact ⟨some _, rfl⟩
  · exact ⟨st.device_info, rfl⟩

theorem diag_step_firmware_frame (st : CoordState) (env : TickEnv) :
    ∃ d, diag_step_firmware st env = {st with firmware_version := d} := by
  unfold diag_step_firmware
  split
  · split
    · exact ⟨some _, rfl⟩
    · exact ⟨st.firmware_version, rfl⟩
  · exact ⟨st.firmware_version, rfl⟩

theorem diag_step_clients_frame (st : CoordState) (env : TickEnv) :
    ∃ d, diag_step_clients st env = {st with connected_devices := d} := by
  unfold diag_step_clients
  split
  · exact ⟨some _, rfl⟩
  · exact ⟨st.connected_devices, rfl⟩

theorem diag_step_traffic_frame (st : CoordState) (env : TickEnv) :
    ∃ d, diag_step_traffic st env = {st with traffic_stats := d} := by
  unfold diag_step_traffic
  split
  · exact ⟨_, rfl⟩
  · exact ⟨st.traffic_stats, rfl⟩

/-- `_poll_diagnostics` touches only the five diagnostic caches. -/
theorem poll_diagnostics_frame (st : CoordState) (env : TickEnv) :
    ∃ d di fw cd ts, poll_diagnostics st env =
      {st with diagnostics := d, device_info := di, firmware_version := fw,
               connected_devices := cd, traffic_stats := ts} := by
  obtain ⟨d, h1⟩ := diag_step_sysdiag_frame st env
  obtain ⟨di, h2⟩ := diag_step_device_frame {st with diagnostics := d} env
  obtain ⟨fw, h3⟩ := diag_step_firmware_frame
    {st with diagnostics := d, device_info := di} env
  obtain ⟨cd, h4⟩ := diag_step_clients_frame
    {st with diagnostics := d, device_info := di, firmware_version := fw} env
  obtain ⟨ts, h5⟩ := diag_step_traffic_frame
    {st with diagnostics := d, device_info := di, firmware_version := fw,
             connected_devices := cd} env
  refine ⟨d, di, fw, cd, ts, ?_⟩
  unfold poll_diagnostics
  rw [h1, h2, h3, h4, h5]

/-- `_poll_vpn` touches only the VPN cache. -/
theorem poll_vpn_frame {st st' : CoordState} {env : TickEnv}
    (h : poll_vpn st env = .ok st') : ∃ v, st' = {st with vpn_profiles := v} := by
  refine ⟨st'.vpn_profiles, ?_⟩
  unfold poll_vpn at h
  rcases hv : get_pep_vpn_profiles env.vpn_resp with e | v <;> rw [hv] at h
  · cases e
    case pyErr =>
      rw [show (match (Except.error PErr.pyErr :
            Except PErr (List (String × (Json × Json × Json)))) with
        | .ok raw => Except.ok {st with vpn_profiles := raw.map (fun p =>
            (p.1, { profile_id := p.1, name := p.2.1, vpn_type := p.2.2.1,
                    status := p.2.2.2 : VpnProfile }))}
        | .error .pyErr => (Except.error () : Except Unit CoordState)
        | .error _ => Except.ok st) = (Except.error () : Except Unit CoordState) from rfl] at h
      exact Except.noConfusion h
    all_goals
      first
      | (change Except.ok st = Except.ok st' at h
         injection h with h2
         rw [← h2])
  · change Except.ok _ = Except.ok st' at h
    injection h with h2
    rw [← h2]

/-- `_poll_gps` touches only the location cache. -/
theorem poll_gps_frame (st : CoordState) (env : TickEnv) :
    ∃ l, poll_gps st env = {st with location := l} := by
  refine ⟨(poll_gps st env).location, ?_⟩
  unfold poll_gps
  split
  all_goals rfl

/-! ## Claim theorems -/

/-- C7: every successful token grant completing at monotonic time `now`
stores expiry `now + 46*60*60` seconds, whatever the grant response body
carried — the server-reported expiry is never read (the result is
independent of any expiry field, since the theorem quantifies over all
transport outcomes). -/
theorem grant_token_fixed_expiry (client_id client_secret : String) (now : ℚ)
    (st st' : AuthState) (h : HttpOutcome) (made : Bool)
    (hok : grant_token client_id client_secret now st h = (st', .ok (), made)) :
    st'.token_expires_at = now + TOKEN_REFRESH_SECS := by
  unfold grant_token at hok
  repeat' split at hok
  all_goals simp_all [Prod.mk.injEq]
  all_goals
    obtain ⟨h1, -⟩ := hok
    rw [← h1]

/-- C7 witness: a grant response carrying its own `expiresIn` field still
yields expiry `now + TOKEN_REFRESH_SECS` (at `now = 1000`). -/
theorem grant_token_fixed_expiry_witness :
    ({ auth_cookie := none, is_connected := false,
       access_token := some (.str "tok"),
       token_expires_at := 1000 + TOKEN_REFRESH_SECS } : AuthState).token_expires_at =
      1000 + TOKEN_REFRESH_SECS :=
  grant_token_fixed_expiry "cid" "sec" 1000 {} _
    (.resp 200 [] (.json (.obj [("stat", .str "ok"),
      ("response", .obj [("accessToken", .str "tok"), ("expiresIn", .num 3600)])])))
    true rfl

/-- C8: the WAN usage decoder's two shapes are mutually exclusive — any
key parsing as an integer selects the multi-SIM shape (`sim_slots`
populated from the integer-keyed sub-objects, all flat fields absent),
otherwise the flat shape (`sim_slots` absent); the spec's example payload
decodes to exactly the two slots. -/
theorem parse_wan_usage_shape :
    (∀ (cid : Int) (data : List (String × Json)),
      (hasNestedSims data = true →
        (parse_wan_usage cid data).sim_slots = some (buildSimSlots data []) ∧
        (parse_wan_usage cid data).usage_mb = none ∧
        (parse_wan_usage cid data).limit_mb = none ∧
        (parse_wan_usage cid data).percent = none ∧
        (parse_wan_usage cid data).unit = none ∧
        (parse_wan_usage cid data).start_date = none) ∧
      (hasNestedSims data = false →
        (parse_wan_usage cid data).sim_slots = none)) ∧
    (parse_wan_usage 1
        [("1", .obj [("enable", .bool true), ("usage", .num 100)]),
         ("2", .obj [("enable", .bool false)])]).sim_slots =
      some [(1, { slot_id := 1, enabled := true, has_usage_tracking := true,
                  usage_mb := some 100, limit_mb := none, percent := none,
                  start_date := none }),
            (2, { slot_id := 2, enabled := false, has_usage_tracking := false,
                  usage_mb := none, limit_mb := none, percent := none,
                  start_date := none })] := by
  refine ⟨?_, by rfl⟩
  intro cid data
  constructor
  · intro hn
    simp [parse_wan_usage, hn]
  · intro hn
    simp [parse_wan_usage, hn]

/-- C8 witness: instantiate the universal part at the example payload
(whose `hasNestedSims` is `true`), recovering the multi-SIM shape. -/
theorem parse_wan_usage_shape_witness :
    (parse_wan_usage 1
        [("1", .obj [("enable", .bool true), ("usage", .num 100)]),
         ("2", .obj [("enable", .bool false)])]).sim_slots =
      some (buildSimSlots
        [("1", .obj [("enable", .bool true), ("usage", .num 100)]),
         ("2", .obj [("enable", .bool false)])] []) :=
  ((parse_wan_usage_shape.1 1
      [("1", .obj [("enable", .bool true), ("usage", .num 100)]),
       ("2", .obj [("enable", .bool false)])]).1 (by rfl)).1

/-- A dropped entry does not change which keys the loop can produce. -/
theorem skip_entry_iff {P : (String × Json) → Prop} {A B : Prop}
    {kv : String × Json} {rest : List (String × Json)}
    (hne : ¬ P kv)
    (hih : A ↔ B ∨ ∃ kv2 ∈ rest, P kv2) :
    A ↔ B ∨ ∃ kv2 ∈ kv :: rest, P kv2 := by
  rw [hih]
  constructor
  · rintro (hb | ⟨kv2, h2, hp⟩)
    · exact Or.inl hb
    · exact Or.inr ⟨kv2, List.mem_cons_of_mem _ h2, hp⟩
  · rintro (hb | ⟨kv2, h2, hp⟩)
    · exact Or.inl hb
    · rcases List.mem_cons.mp h2 with rfl | h3
      · exact absurd hp hne
      · exact Or.inr ⟨kv2, h3, hp⟩

/-- A kept entry contributes exactly its own key. -/
theorem keep_entry_iff {P : (String × Json) → Prop} {A B I : Prop}
    {kv : String × Json} {rest : List (String × Json)}
    (hkv : I ↔ P kv)
    (hih : A ↔ (I ∨ B) ∨ ∃ kv2 ∈ rest, P kv2) :
    A ↔ B ∨ ∃ kv2 ∈ kv :: rest, P kv2 := by
  rw [hih]
  constructor
  · rintro ((hi | hb) | ⟨kv2, h2, hp⟩)
    · exact Or.inr ⟨kv, List.mem_cons_self kv rest, hkv.mp hi⟩
    · exact Or.inl hb
    · exact Or.inr ⟨kv2, List.mem_cons_of_mem _ h2, hp⟩
  · rintro (hb | ⟨kv2, h2, hp⟩)
    · exact Or.inl (Or.inr hb)
    · rcases List.mem_cons.mp h2 with rfl | h3
      · exact Or.inl (Or.inl (hkv.mpr hp))
      · exact Or.inr ⟨kv2, h3, hp⟩


/-- Key-set characterization of the `get_wan_status` entry loop,
generalized over the accumulator. -/
theorem parseWanEntries_keys (entries : List (String × Json)) :
    ∀ (acc m : List (Int × WanConnection)),
      parseWanEntries entries acc = .ok m →
      ∀ i : Int, (∃ wc, (i, wc) ∈ m) ↔
        (∃ wc, (i, wc) ∈ acc) ∨
        (∃ kv ∈ entries, pyStrInt? kv.1 = some i ∧ kv.2.isObjB = true) := by
  induction entries with
  | nil =>
      intro acc m h i
      change Except.ok acc = Except.ok m at h
      injection h with h2
      subst h2
      simp
  | cons kv rest ih =>
      obtain ⟨k, v⟩ := kv
      intro acc m h i
      simp only [parseWanEntries] at h
      rcases hk : pyStrInt? k with _ | ki <;> rw [hk] at h
      · change parseWanEntries rest acc = Except.ok m at h
        refine skip_entry_iff ?_ (ih acc m h i)
        rintro ⟨h1, -⟩
        rw [hk] at h1
        exact Option.noConfusion h1
      · cases v
        case obj ces =>
          change (match parse_wan_connection ki ces with
            | some wc => parseWanEntries rest (insertA acc ki wc)
            | none => Except.error PErr.pyErr) = Except.ok m at h
          rcases hp : parse_wan_connection ki ces with _ | wc <;> rw [hp] at h
          · exact absurd h (by simp)
          · change parseWanEntries rest (insertA acc ki wc) = Except.ok m at h
            refine keep_entry_iff (I := i = ki) ?_ ?_
            · constructor
              · rintro rfl
                exact ⟨hk, rfl⟩
              · rintro ⟨h1, -⟩
                rw [hk] at h1
                injection h1 with h2
                exact h2.symm
            · rw [ih _ m h i, insertA_existsKey]
        all_goals
          change parseWanEntries rest acc = Except.ok m at h
        all_goals
          refine skip_entry_iff ?_ (ih acc m h i)
        all_goals
          rintro ⟨-, h2⟩
          exact absurd h2 (by simp [Json.isObjB])

/-- Key-set characterization of the `get_wan_usage` entry loop. -/
theorem parseUsageEntries_keys (entries : List (String × Json)) :
    ∀ (acc : List (Int × WanUsage)) (i : Int),
      (∃ u, (i, u) ∈ parseUsageEntries entries acc) ↔
        (∃ u, (i, u) ∈ acc) ∨
        (∃ kv ∈ entries, pyStrInt? kv.1 = some i ∧ kv.2.isObjB = true) := by
  induction entries with
  | nil =>
      intro acc i
      simp [parseUsageEntries]
  | cons kv rest ih =>
      obtain ⟨k, v⟩ := kv
      intro acc i
      simp only [parseUsageEntries]
      rcases hk : pyStrInt? k with _ | ki
      · show (∃ u, (i, u) ∈ parseUsageEntries rest acc) ↔ _
        refine skip_entry_iff ?_ (ih acc i)
        rintro ⟨h1, -⟩
        rw [hk] at h1
        exact Option.noConfusion h1
      · cases v
        case obj ues =>
          show (∃ u, (i, u) ∈
            parseUsageEntries rest (insertA acc ki (parse_wan_usage ki ues))) ↔ _
          refine keep_entry_iff (I := i = ki) ?_ ?_
          · constructor
            · rintro rfl
              exact ⟨hk, rfl⟩
            · rintro ⟨h1, -⟩
              rw [hk] at h1
              injection h1 with h2
              exact h2.symm
          · rw [ih, insertA_existsKey]
        all_goals
          show (∃ u, (i, u) ∈ parseUsageEntries rest acc) ↔ _
        all_goals
          refine skip_entry_iff ?_ (ih acc i)
        all_goals
          rintro ⟨-, h2⟩
          exact absurd h2 (by simp [Json.isObjB])

/-- C9: in the WAN status and WAN usage decoders, response entries whose
key does not parse as an integer or whose value is not a JSON object are
silently dropped: the returned map's keys are exactly the integer-parsing
keys of the response that map to objects. -/
theorem wan_maps_integer_keys :
    (∀ (entries : List (String × Json)) (m : List (Int × WanConnection)),
        get_wan_status (.ok (.json (.obj
            [("stat", .str "ok"), ("response", .obj entries)]))) = .ok m →
        ∀ i : Int, (∃ wc, (i, wc) ∈ m) ↔
          ∃ kv ∈ entries, pyStrInt? kv.1 = some i ∧ kv.2.isObjB = true) ∧
    (∀ (entries : List (String × Json)) (m : List (Int × WanUsage)),
        get_wan_usage (.ok (.json (.obj
            [("stat", .str "ok"), ("response", .obj entries)]))) = .ok m →
        ∀ i : Int, (∃ u, (i, u) ∈ m) ↔
          ∃ kv ∈ entries, pyStrInt? kv.1 = some i ∧ kv.2.isObjB = true) := by
  constructor
  · intro entries m h i
    have hred : get_wan_status (.ok (.json (.obj
        [("stat", .str "ok"), ("response", .obj entries)]))) =
        parseWanEntries entries [] := rfl
    rw [hred] at h
    rw [parseWanEntries_keys entries [] m h i]
    simp
  · intro entries m h i
    have hred : get_wan_usage (.ok (.json (.obj
        [("stat", .str "ok"), ("response", .obj entries)]))) =
        .ok (parseUsageEntries entries []) := rfl
    rw [hred] at h
    injection h with h2
    subst h2
    rw [parseUsageEntries_keys entries [] i]
    simp

/-- Entries and decoded map used by the C9 witness. -/
def c9entries : List (String × Json) :=
  [("1", .obj [("enable", .bool true)]), ("abc", .obj []), ("2", .str "x")]

/-- The decoded WAN status map on `c9entries` (only id 1 survives). -/
def c9m : List (Int × WanConnection) :=
  match get_wan_status (.ok (.json (.obj
      [("stat", .str "ok"), ("response", .obj c9entries)]))) with
  | .ok m => m
  | .error _ => []

/-- C9 witness: on a response with a non-integer key and a non-object
value, the decoded map's keys are as characterized. -/
theorem wan_maps_integer_keys_witness :
    ((∃ wc, ((1 : Int), wc) ∈ c9m) ↔
      ∃ kv ∈ c9entries, pyStrInt? kv.1 = some 1 ∧ kv.2.isObjB = true) ∧
    ((∃ wc, ((2 : Int), wc) ∈ c9m) ↔
      ∃ kv ∈ c9entries, pyStrInt? kv.1 = some 2 ∧ kv.2.isObjB = true) :=
  ⟨wan_maps_integer_keys.1 c9entries c9m rfl 1,
   wan_maps_integer_keys.1 c9entries c9m rfl 2⟩

/-- Every pair produced by the traffic entry loop comes from a bandwidth
entry, with both rates computed by `divKbps`. -/
theorem parseTrafficEntries_mem (entries : List (String × Json)) :
    ∀ (acc m : List (Int × (ℚ × ℚ))),
      parseTrafficEntries entries acc = .ok m →
      ∀ p ∈ m, p ∈ acc ∨
        ∃ kv ∈ entries, pyStrInt? kv.1 = some p.1 ∧
          ∃ ces oes, kv.2 = .obj ces ∧ jGetD ces "overall" (.obj []) = .obj oes ∧
            divKbps (jGet oes "download") = .ok p.2.1 ∧
            divKbps (jGet oes "upload") = .ok p.2.2 := by
  induction entries with
  | nil =>
      intro acc m h p hp
      change Except.ok acc = Except.ok m at h
      injection h with h2
      subst h2
      exact Or.inl hp
  | cons kv rest ih =>
      obtain ⟨k, v⟩ := kv
      intro acc m h p hp
      simp only [parseTrafficEntries] at h
      rcases hk : pyStrInt? k with _ | ki <;> rw [hk] at h
      · change parseTrafficEntries rest acc = Except.ok m at h
        rcases ih acc m h p hp with ha | ⟨kv2, h2, hq⟩
        · exact Or.inl ha
        · exact Or.inr ⟨kv2, List.mem_cons_of_mem _ h2, hq⟩
      · cases v
        case obj ces =>
          change (match jGetD ces "overall" (.obj []) with
            | .obj oes =>
                match divKbps (jGet oes "download") with
                | .error e => (Except.error e : Except PErr (List (Int × (ℚ × ℚ))))
                | .ok dl =>
                    match divKbps (jGet oes "upload") with
                    | .error e => .error e
                    | .ok ul => parseTrafficEntries rest (insertA acc ki (dl, ul))
            | _ => parseTrafficEntries rest acc) = Except.ok m at h
          rcases ho : jGetD ces "overall" (.obj []) with _ | _ | _ | _ | _ | oes <;>
            rw [ho] at h
          case obj =>
            change (match divKbps (jGet oes "download") with
              | .error e => (Except.error e : Except PErr (List (Int × (ℚ × ℚ))))
              | .ok dl =>
                  match divKbps (jGet oes "upload") with
                  | .error e => .error e
                  | .ok ul => parseTrafficEntries rest (insertA acc ki (dl, ul))) =
              Except.ok m at h
            rcases hdl : divKbps (jGet oes "download") with e | dl <;> rw [hdl] at h
            · change (Except.error e : Except PErr (List (Int × (ℚ × ℚ)))) =
                Except.ok m at h
              exact Except.noConfusion h
            · change (match divKbps (jGet oes "upload") with
                | .error e => (Except.error e : Except PErr (List (Int × (ℚ × ℚ))))
                | .ok ul => parseTrafficEntries rest (insertA acc ki (dl, ul))) =
                Except.ok m at h
              rcases hul : divKbps (jGet oes "upload") with e | ul <;> rw [hul] at h
              · change (Except.error e : Except PErr (List (Int × (ℚ × ℚ)))) =
                  Except.ok m at h
                exact Except.noConfusion h
              · change parseTrafficEntries rest (insertA acc ki (dl, ul)) = Except.ok m at h
                rcases ih _ m h p hp with ha | ⟨kv2, h2, hq⟩
                · rcases insertA_mem_sub ha with rfl | ha2
                  · exact Or.inr ⟨(k, .obj ces), List.mem_cons_self .. ,
                      by rw [hk], ces, oes, rfl, ho, hdl, hul⟩
                  · exact Or.inl ha2
                · exact Or.inr ⟨kv2, List.mem_cons_of_mem _ h2, hq⟩
          all_goals
            change parseTrafficEntries rest acc = Except.ok m at h
          all_goals
            rcases ih acc m h p hp with ha | ⟨kv2, h2, hq⟩
            · exact Or.inl ha
            · exact Or.inr ⟨kv2, List.mem_cons_of_mem _ h2, hq⟩
        all_goals
          change parseTrafficEntries rest acc = Except.ok m at h
        all_goals
          rcases ih acc m h p hp with ha | ⟨kv2, h2, hq⟩
          · exact Or.inl ha
          · exact Or.inr ⟨kv2, List.mem_cons_of_mem _ h2, hq⟩

/-- C10: every id in the traffic-stats result carries both a download and
an upload rate computed by `divKbps` from the `overall` object; a missing,
null or zero field yields exactly `0.0` Mbps; a numeric field `q` (kbps)
yields `q / 1000` Mbps. -/
theorem traffic_stats_rates :
    (∀ (entries : List (String × Json)) (m : List (Int × (ℚ × ℚ))),
        get_traffic_stats (.ok (.json (.obj [("stat", .str "ok"),
            ("response", .obj [("bandwidth", .obj entries)])]))) = .ok m →
        ∀ p ∈ m, ∃ kv ∈ entries, pyStrInt? kv.1 = some p.1 ∧
          ∃ ces oes, kv.2 = .obj ces ∧ jGetD ces "overall" (.obj []) = .obj oes ∧
            divKbps (jGet oes "download") = .ok p.2.1 ∧
            divKbps (jGet oes "upload") = .ok p.2.2) ∧
    (∀ o : Option Json, o = none ∨ o = some .null ∨ o = some (.num 0) →
        divKbps o = .ok 0) ∧
    (∀ q : ℚ, divKbps (some (.num q)) = .ok (q / 1000)) := by
  refine ⟨?_, ?_, ?_⟩
  · intro entries m h p hp
    have hred : get_traffic_stats (.ok (.json (.obj [("stat", .str "ok"),
        ("response", .obj [("bandwidth", .obj entries)])]))) =
        parseTrafficEntries entries [] := rfl
    rw [hred] at h
    rcases parseTrafficEntries_mem entries [] m h p hp with ha | hb
    · exact absurd ha (List.not_mem_nil p)
    · exact hb
  · rintro o (rfl | rfl | rfl) <;> simp [divKbps, pyOr, Json.truthy]
  · intro q
    by_cases hq : q = 0
    · subst hq
      simp [divKbps, pyOr, Json.truthy]
    · simp [divKbps, pyOr, Json.truthy, hq]

/-- Bandwidth entries for the C10 witness (the spec's example values). -/
def c10entries : List (String × Json) :=
  [("1", .obj [("overall", .obj [("download", .num 5000), ("upload", .num 1000)])]),
   ("2", .obj [("overall", .obj [])])]

/-- The decoded traffic map on `c10entries`. -/
def c10m : List (Int × (ℚ × ℚ)) :=
  match get_traffic_stats (.ok (.json (.obj [("stat", .str "ok"),
      ("response", .obj [("bandwidth", .obj c10entries)])]))) with
  | .ok m => m
  | .error _ => []

/-- C10 witness: the example payload decodes with both rates present,
5000 and 1000 kbps divided by 1000, and an absent field yields 0.0. -/
theorem traffic_stats_rates_witness :
    (∃ kv ∈ c10entries, pyStrInt? kv.1 = some (1 : Int) ∧
      ∃ ces oes, kv.2 = .obj ces ∧ jGetD ces "overall" (.obj []) = .obj oes ∧
        divKbps (jGet oes "download") = .ok ((5000 : ℚ) / 1000) ∧
        divKbps (jGet oes "upload") = .ok ((1000 : ℚ) / 1000)) ∧
    divKbps (none : Option Json) = .ok 0 ∧
    divKbps (some (.num 5000)) = .ok ((5000 : ℚ) / 1000) :=
  ⟨traffic_stats_rates.1 c10entries c10m rfl (1, (5000 : ℚ)/1000, (1000 : ℚ)/1000)
     (by rw [show c10m = [((1 : Int), ((5000 : ℚ)/1000, (1000 : ℚ)/1000)),
               (2, ((0 : ℚ)/1000, (0 : ℚ)/1000))] from rfl]
         exact List.mem_cons_self ..),
   traffic_stats_rates.2.1 none (Or.inl rfl),
   traffic_stats_rates.2.2 5000⟩

/-- `_grant_token` either fails before any network call (missing client
credentials) or made exactly one network call. -/
theorem grant_made_or_precheck (cid csec : String) (now : ℚ) (st : AuthState)
    (h : HttpOutcome) :
    (grant_token cid csec now st h).2.2 = true ∨
    grant_token cid csec now st h = (st, .error .authErr, false) := by
  unfold grant_token
  split
  · exact Or.inr rfl
  · repeat' split
    all_goals exact Or.inl rfl

/-- One 401 attempt of the `_request` loop: clear state, force re-auth
(which succeeds), continue with one fewer attempt. -/
theorem request_attempts_401_step (cfg : ClientCfg) (env : ReqEnv) (now : ℚ)
    (fuel : Nat) (st : AuthState) (ri ai : Nat) (ck : List String) (bd : ReqResult)
    (s1 : AuthState) (m1 : Bool)
    (hmode : cfg.auth_mode = .token)
    (hhttp : env.http ri = .resp 401 ck bd)
    (hg : grant_token cfg.client_id cfg.client_secret now (clearAuth st) (env.auth ai)
          = (s1, .ok (), m1)) :
    request_attempts cfg env now (fuel + 1) st ri ai =
      request_attempts cfg env now fuel s1 (ri + 1) (if m1 then ai + 1 else ai) := by
  have he : ensure_connected cfg true now (clearAuth st) (env.auth ai) = (s1, .ok (), m1) := by
    unfold ensure_connected
    rw [hmode]
    simp [hg]
  simp only [request_attempts]
  rw [hhttp]
  simp [he]

/-- `_request` with a successful initial non-forced `ensure_connected`
proceeds to the two-attempt loop. -/
theorem request_start_ok (cfg : ClientCfg) (env : ReqEnv) (now : ℚ)
    (st st0 : AuthState) (made0 : Bool)
    (he : ensure_connected cfg false now st (env.auth 0) = (st0, .ok (), made0)) :
    request cfg env now st =
      request_attempts cfg env now 2 st0 0 (if made0 then 1 else 0) := by
  unfold request
  simp [he]

/-- C2 counterexample: with a valid token, a transport that answers 401 to
both request attempts, and re-authentication succeeding every time, the
dispatcher fails with `AuthError` after exactly 2 request attempts — but
it performs 2 re-authentication attempts (one after each 401), not the
single one the claim states. -/
def c2cfg : ClientCfg :=
  { auth_mode := .token, client_id := "cid", client_secret := "sec" }

def c2st : AuthState := { access_token := some (.str "tok"), token_expires_at := 1000 }

def c2env : ReqEnv :=
  { http := fun _ => .resp 401 [] (.text "")
    auth := fun _ => .resp 200 [] (.json (.obj [("stat", .str "ok"),
      ("response", .obj [("accessToken", .str "tok2")])])) }

/-- C2 counterexample (see `c2cfg`/`c2st`/`c2env`): 2 request attempts,
`AuthError` — and 2 re-authentication attempts, contradicting "exactly 1". -/
theorem request_double_401_counterexample :
    (request c2cfg c2env 0 c2st).result = .error .authErr ∧
    (request c2cfg c2env 0 c2st).reqAttempts = 2 ∧
    (request c2cfg c2env 0 c2st).authCalls = 2 ∧
    ¬ (request c2cfg c2env 0 c2st).authCalls = 1 := by
  refine ⟨rfl, rfl, rfl, ?_⟩
  rw [show (request c2cfg c2env 0 c2st).authCalls = 2 from rfl]
  decide

/-- C2 (amended): a request finding a valid token that then receives 401
on both attempts, with every forced re-authentication succeeding, fails
with `AuthError` after exactly 2 request attempts and exactly 2 (not 1)
re-authentication attempts — the loop re-authenticates after each 401,
including the final one. -/
theorem request_double_401 (cfg : ClientCfg) (env : ReqEnv) (now : ℚ)
    (st : AuthState)
    (hmode : cfg.auth_mode = .token)
    (htok : st.access_token.isSome = true)
    (hexp : now < st.token_expires_at)
    (h401 : ∀ n, n < 2 → ∃ ck bd, env.http n = .resp 401 ck bd)
    (hauth : ∀ (i : Nat) (s : AuthState),
        (grant_token cfg.client_id cfg.client_secret now s (env.auth i)).2.1 = .ok ()) :
    (request cfg env now st).result = .error .authErr ∧
    (request cfg env now st).reqAttempts = 2 ∧
    (request cfg env now st).authCalls = 2 := by
  obtain ⟨ck0, bd0, h0⟩ := h401 0 (by norm_num)
  obtain ⟨ck1, bd1, h1⟩ := h401 1 (by norm_num)
  rcases hg0 : grant_token cfg.client_id cfg.client_secret now (clearAuth st)
      (env.auth 0) with ⟨s1, r1, m1⟩
  have hr1 : r1 = .ok () := by
    have hx := hauth 0 (clearAuth st)
    rw [hg0] at hx
    exact hx
  subst hr1
  have hm1 : m1 = true := by
    rcases grant_made_or_precheck cfg.client_id cfg.client_secret now (clearAuth st)
        (env.auth 0) with hx | hx
    · rw [hg0] at hx
      exact hx
    · rw [hg0] at hx
      exact absurd hx (by simp)
  subst hm1
  rcases hg1 : grant_token cfg.client_id cfg.client_secret now (clearAuth s1)
      (env.auth 1) with ⟨s2, r2, m2⟩
  have hr2 : r2 = .ok () := by
    have hx := hauth 1 (clearAuth s1)
    rw [hg1] at hx
    exact hx
  subst hr2
  have hm2 : m2 = true := by
    rcases grant_made_or_precheck cfg.client_id cfg.client_secret now (clearAuth s1)
        (env.auth 1) with hx | hx
    · rw [hg1] at hx
      exact hx
    · rw [hg1] at hx
      exact absurd hx (by simp)
  subst hm2
  have he0 : ensure_connected cfg false now st (env.auth 0) = (st, .ok (), false) := by
    unfold ensure_connected
    rw [hmode]
    simp [htok, hexp]
  have e1 := request_attempts_401_step cfg env now 1 st 0 0 ck0 bd0 s1 true hmode h0 hg0
  have e2 := request_attempts_401_step cfg env now 0 s1 1 1 ck1 bd1 s2 true hmode h1 hg1
  simp only [if_true] at e1 e2
  have hfinal : request cfg env now st = ⟨s2, .error .authErr, 2, 2⟩ := by
    rw [request_start_ok cfg env now st st false he0]
    norm_num
    rw [e1, e2]
    rfl
  rw [hfinal]
  exact ⟨rfl, rfl, rfl⟩

/-- C2 witness: the amended theorem applied to the concrete
double-401 environment. -/
theorem request_double_401_witness :
    (request c2cfg c2env 0 c2st).result = .error .authErr ∧
    (request c2cfg c2env 0 c2st).reqAttempts = 2 ∧
    (request c2cfg c2env 0 c2st).authCalls = 2 :=
  request_double_401 c2cfg c2env 0 c2st rfl rfl
    (by rw [show c2st.token_expires_at = (1000 : ℚ) from rfl]; norm_num)
    (fun n _ => ⟨[], .text "", rfl⟩)
    (fun i s => rfl)

/-- Number of network login/token-grant calls made by two concurrent
callers that both trigger forced re-authentication: the `_auth_lock`
serializes the two complete `_ensure_connected(force=True)` bodies, so
every interleaving is this sequential composition. -/
def twoForcedLogins (cfg : ClientCfg) (now : ℚ) (st : AuthState)
    (h1 h2 : HttpOutcome) : Nat :=
  let r1 := ensure_connected cfg true now st h1
  let r2 := ensure_connected cfg true now r1.1 h2
  (if r1.2.2 then 1 else 0) + (if r2.2.2 then 1 else 0)

def c6cfg : ClientCfg := { auth_mode := .userpass, username := "u", password := "p" }

def c6st : AuthState := { auth_cookie := some "c", is_connected := true }

def c6h : HttpOutcome :=
  .resp 200 ["pauth=abc; HttpOnly"] (.json (.obj [("stat", .str "ok")]))

/-- C6 counterexample: two serialized forced re-authentications on an
authenticated cookie session, with the login endpoint succeeding, make 2
network login calls — not the 1 the claim states (`force=True` skips the
credential check, so the second caller does not reuse the first's fresh
credential). -/
theorem two_forced_reauth_counterexample :
    twoForcedLogins c6cfg 0 c6st c6h c6h = 2 ∧
    ¬ twoForcedLogins c6cfg 0 c6st c6h c6h = 1 := by
  constructor
  · rfl
  · rw [show twoForcedLogins c6cfg 0 c6st c6h c6h = 2 from rfl]
    decide

/-- `_login` success leaves the session authenticated. -/
theorem login_ok_auth {st st1 : AuthState} {h : HttpOutcome}
    (hl : login st h = (st1, .ok ())) :
    st1.is_connected = true ∧ st1.auth_cookie.isSome = true := by
  unfold login at hl
  repeat' split at hl
  all_goals simp_all
  all_goals
    rw [← hl]
    exact ⟨rfl, rfl⟩

/-- C6 (amended): the lock serializes but does not deduplicate forced
re-authentication — each of two serialized forced cookie-mode callers
performs its own network login (2 calls total); only a non-forced second
caller reuses the credential established by a successful forced call and
makes no network call. -/
theorem forced_reauth_serialized (cfg : ClientCfg) (now : ℚ) (st : AuthState)
    (h1 h2 : HttpOutcome) (hmode : cfg.auth_mode = .userpass) :
    ((ensure_connected cfg true now st h1).2.2 = true ∧
     (ensure_connected cfg true now
        (ensure_connected cfg true now st h1).1 h2).2.2 = true) ∧
    (∀ st1, ensure_connected cfg true now st h1 = (st1, .ok (), true) →
       ensure_connected cfg false now st1 h2 = (st1, .ok (), false)) := by
  have hforce : ∀ (s : AuthState) (h : HttpOutcome),
      (ensure_connected cfg true now s h).2.2 = true := by
    intro s h
    unfold ensure_connected
    rw [hmode]
    rcases hl : login s h with ⟨a, b⟩
    simp [hl]
  refine ⟨⟨hforce st h1, hforce _ h2⟩, ?_⟩
  intro st1 he
  unfold ensure_connected at he
  rw [hmode] at he
  simp only [Bool.not_true, Bool.and_false, Bool.false_eq_true, if_false] at he
  rcases hl : login st h1 with ⟨a, b⟩
  rw [hl] at he
  have ha : a = st1 := by
    have := congrArg Prod.fst he
    simpa using this
  have hb : b = .ok () := by
    have := congrArg (fun p => p.2.1) he
    simpa using this
  subst ha
  subst hb
  obtain ⟨hc, hk⟩ := login_ok_auth hl
  unfold ensure_connected
  rw [hmode]
  simp [hc, hk]

/-- C6 witness: the amended theorem at the concrete session and responses
of the counterexample. -/
theorem forced_reauth_serialized_witness :
    (((ensure_connected c6cfg true 0 c6st c6h).2.2 = true ∧
      (ensure_connected c6cfg true 0
         (ensure_connected c6cfg true 0 c6st c6h).1 c6h).2.2 = true) ∧
     (∀ st1, ensure_connected c6cfg true 0 c6st c6h = (st1, .ok (), true) →
        ensure_connected c6cfg false 0 st1 c6h = (st1, .ok (), false))) :=
  forced_reauth_serialized c6cfg 0 c6st c6h c6h rfl

/-- C3: a tick whose primary WAN poll raises aborts with `UpdateFailed`
(no snapshot is produced), runs no slow poll, mutates no cadence cache or
timestamp, and sets the health flags to (true, false, false) on
`AuthError` and (false, false, false) on `ConnectionError`/`ApiError`. -/
theorem primary_failure_aborts (cfg : CoordConfig) (st : CoordState) (now : ℚ)
    (env : TickEnv) :
    (get_wan_status env.wan_status_resp = .error .authErr →
        async_update_data cfg st now env =
          ({st with api_connected := true, authenticated := false, data_healthy := false},
           .error .authFail, ⟨false, false, false, false⟩)) ∧
    (∀ e, (e = PErr.connErr ∨ e = PErr.apiErr) →
        get_wan_status env.wan_status_resp = .error e →
        async_update_data cfg st now env =
          ({st with api_connected := false, authenticated := false, data_healthy := false},
           .error .connFail, ⟨false, false, false, false⟩)) := by
  constructor
  · intro h
    unfold async_update_data
    rw [h]
  · rintro e (rfl | rfl) h <;> (unfold async_update_data; rw [h])

def c3cfg : CoordConfig := ⟨0, 0, false, 0, false, 0⟩

def c3st : CoordState := {}

def c3envA : TickEnv :=
  { wan_status_resp := .error .authErr, is_auth := false,
    usage_resp := .error .connErr, diag_resp := .error .connErr,
    device_resp := .error .connErr, firmware_resp := .error .connErr,
    clients_resp := .error .connErr, traffic_resp := .error .connErr,
    vpn_resp := .error .connErr, location_resp := .error .connErr }

def c3envC : TickEnv :=
  { c3envA with wan_status_resp := .error .connErr }

/-- C3 witness: concrete failing ticks for the `AuthError` and
`ConnectionError` cases. -/
theorem primary_failure_aborts_witness :
    async_update_data c3cfg c3st 0 c3envA =
      ({c3st with api_connected := true, authenticated := false, data_healthy := false},
       .error .authFail, ⟨false, false, false, false⟩) ∧
    async_update_data c3cfg c3st 0 c3envC =
      ({c3st with api_connected := false, authenticated := false, data_healthy := false},
       .error .connFail, ⟨false, false, false, false⟩) :=
  ⟨(primary_failure_aborts c3cfg c3st 0 c3envA).1 rfl,
   (primary_failure_aborts c3cfg c3st 0 c3envC).2 .connErr (Or.inl rfl) rfl⟩

/-! ## Tick-level frame projections (helper simp lemmas) -/

theorem poll_diagnostics_last_vpn (st : CoordState) (env : TickEnv) :
    (poll_diagnostics st env).last_vpn_poll = st.last_vpn_poll := by
  obtain ⟨d, di, fw, cd, ts, h⟩ := poll_diagnostics_frame st env
  rw [h]

theorem poll_diagnostics_last_gps (st : CoordState) (env : TickEnv) :
    (poll_diagnostics st env).last_gps_poll = st.last_gps_poll := by
  obtain ⟨d, di, fw, cd, ts, h⟩ := poll_diagnostics_frame st env
  rw [h]

theorem poll_diagnostics_wan_usage (st : CoordState) (env : TickEnv) :
    (poll_diagnostics st env).wan_usage = st.wan_usage := by
  obtain ⟨d, di, fw, cd, ts, h⟩ := poll_diagnostics_frame st env
  rw [h]

theorem poll_diagnostics_vpn_profiles (st : CoordState) (env : TickEnv) :
    (poll_diagnostics st env).vpn_profiles = st.vpn_profiles := by
  obtain ⟨d, di, fw, cd, ts, h⟩ := poll_diagnostics_frame st env
  rw [h]

theorem poll_gps_wan_usage (st : CoordState) (env : TickEnv) :
    (poll_gps st env).wan_usage = st.wan_usage := by
  obtain ⟨l, h⟩ := poll_gps_frame st env
  rw [h]

theorem poll_gps_firmware (st : CoordState) (env : TickEnv) :
    (poll_gps st env).firmware_version = st.firmware_version := by
  obtain ⟨l, h⟩ := poll_gps_frame st env
  rw [h]

theorem poll_gps_clients (st : CoordState) (env : TickEnv) :
    (poll_gps st env).connected_devices = st.connected_devices := by
  obtain ⟨l, h⟩ := poll_gps_frame st env
  rw [h]

theorem poll_gps_vpn_profiles (st : CoordState) (env : TickEnv) :
    (poll_gps st env).vpn_profiles = st.vpn_profiles := by
  obtain ⟨l, h⟩ := poll_gps_frame st env
  rw [h]

/-- The usage step of a tick (gated poll) only changes the usage cache. -/
theorem usage_step_frame {c : Prop} [Decidable c] {st1 st2a : CoordState} {env : TickEnv}
    (h : (if c then poll_usage st1 env else .ok st1) = .ok st2a) :
    ∃ v, st2a = {st1 with wan_usage := v} := by
  split at h
  · exact poll_usage_frame h
  · injection h with h2
    exact ⟨st1.wan_usage, by rw [← h2]⟩

/-- The VPN step of a tick only changes the VPN cache. -/
theorem vpn_step_frame {c : Prop} [Decidable c] {st3 st4a : CoordState} {env : TickEnv}
    (h : (if c then poll_vpn st3 env else .ok st3) = .ok st4a) :
    ∃ v, st4a = {st3 with vpn_profiles := v} := by
  split at h
  · exact poll_vpn_frame h
  · injection h with h2
    exact ⟨st3.vpn_profiles, by rw [← h2]⟩

/-- A failing usage fetch leaves `_poll_usage` a no-op when it returns. -/
theorem poll_usage_err_ok {env : TickEnv} {e : PErr} {st st' : CoordState}
    (he : get_wan_usage env.usage_resp = .error e)
    (h : poll_usage st env = .ok st') : st' = st := by
  unfold poll_usage at h
  rw [he] at h
  cases e
  case pyErr =>
    change (Except.error () : Except Unit CoordState) = Except.ok st' at h
    exact Except.noConfusion h
  all_goals
    change Except.ok st = Except.ok st' at h
    injection h with h2
    exact h2.symm

/-- A failing VPN fetch leaves `_poll_vpn` a no-op when it returns. -/
theorem poll_vpn_err_ok {env : TickEnv} {e : PErr} {st st' : CoordState}
    (he : get_pep_vpn_profiles env.vpn_resp = .error e)
    (h : poll_vpn st env = .ok st') : st' = st := by
  unfold poll_vpn at h
  rw [he] at h
  cases e
  case pyErr =>
    change (Except.error () : Except Unit CoordState) = Except.ok st' at h
    exact Except.noConfusion h
  all_goals
    change Except.ok st = Except.ok st' at h
    injection h with h2
    exact h2.symm

/-- Usage step with a failing fetch: state unchanged if the tick survives. -/
theorem usage_step_err {c : Prop} [Decidable c] {st1 st2a : CoordState} {env : TickEnv}
    {e : PErr} (he : get_wan_usage env.usage_resp = .error e)
    (h : (if c then poll_usage st1 env else .ok st1) = .ok st2a) : st2a = st1 := by
  split at h
  · exact poll_usage_err_ok he h
  · injection h with h2
    exact h2.symm

/-- VPN step with a failing fetch: state unchanged if the tick survives. -/
theorem vpn_step_err {c : Prop} [Decidable c] {st3 st4a : CoordState} {env : TickEnv}
    {e : PErr} (he : get_pep_vpn_profiles env.vpn_resp = .error e)
    (h : (if c then poll_vpn st3 env else .ok st3) = .ok st4a) : st4a = st3 := by
  split at h
  · exact poll_vpn_err_ok he h
  · injection h with h2
    exact h2.symm

/-- C4: on a tick whose primary poll succeeds (and which completes), each
slow poll is invoked iff its cadence has aged past its interval —
`now − lastRefreshedAt ≥ intervalSeconds` — with VPN and GPS additionally
gated on their enable flags. -/
theorem cadence_gating (cfg : CoordConfig) (st : CoordState) (now : ℚ) (env : TickEnv)
    (wan0 : List (Int × WanConnection)) (st' : CoordState) (data : PeplinkData)
    (p : Polled)
    (hwan : get_wan_status env.wan_status_resp = .ok wan0)
    (hres : async_update_data cfg st now env = (st', .ok data, p)) :
    p.usage = decide (now - st.last_usage_poll ≥ cfg.usage_interval) ∧
    p.diag = decide (now - st.last_diag_poll ≥ cfg.diag_interval) ∧
    p.vpn = (cfg.enable_vpn && decide (now - st.last_vpn_poll ≥ cfg.vpn_interval)) ∧
    p.gps = (cfg.enable_gps && decide (now - st.last_gps_poll ≥ cfg.gps_interval)) := by
  unfold async_update_data at hres
  rw [hwan] at hres
  split at hres
  case h_1 x heq => exact Except.noConfusion heq
  case h_2 x heq => exact Except.noConfusion heq
  case h_3 x heq => exact Except.noConfusion heq
  case h_4 x heq => exact Except.noConfusion heq
  case h_5 x wan1 heq =>
    injection heq with hw
    subst hw
    simp only [] at hres
    split at hres
    · exact absurd hres (by simp)
    · rename_i st2a hpoll
      split at hres
      · exact absurd hres (by simp)
      · rename_i st4a hvpn
        have hp := congrArg (fun t => (t.2.2 : Polled)) hres
        simp only [] at hp
        obtain ⟨uv, hfr2⟩ := usage_step_frame hpoll
        obtain ⟨vv, hfr4⟩ := vpn_step_frame hvpn
        rw [← hp]
        refine ⟨?_, ?_, ?_, ?_⟩ <;>
          simp [ge_iff_le, hfr2, hfr4, apply_ite CoordState.last_diag_poll,
                apply_ite CoordState.last_vpn_poll, apply_ite CoordState.last_gps_poll,
                poll_diagnostics_last_vpn, poll_diagnostics_last_gps]

def c4cfg : CoordConfig := ⟨60, 60, false, 60, false, 60⟩

def c4env : TickEnv :=
  { wan_status_resp := .ok (.json (.obj [("stat", .str "ok"), ("response", .obj [])])),
    is_auth := true,
    usage_resp := .error .connErr, diag_resp := .error .connErr,
    device_resp := .error .connErr, firmware_resp := .error .connErr,
    clients_resp := .error .connErr, traffic_resp := .error .connErr,
    vpn_resp := .error .connErr, location_resp := .error .connErr }

/-- The polled flags of a tick at time `now` against fresh cadences with
60-second intervals. -/
def c4p (now : ℚ) : Polled := (async_update_data c4cfg {} now c4env).2.2

/-- The snapshot of that tick (fallback value is never reached). -/
def c4data (now : ℚ) : PeplinkData :=
  match (async_update_data c4cfg {} now c4env).2.1 with
  | .ok d => d
  | .error _ => ⟨[], [], none, none, none, none, [], [], none, true, true, true⟩

/-- C4 witness: with `intervalSeconds = 60` and last refresh at `t0 = 0`,
the tick at `t0+59` does not invoke the usage poll and the tick at
`t0+61` does. -/
theorem cadence_gating_witness :
    (c4p 59).usage = false ∧ (c4p 61).usage = true := by
  constructor
  · have h := (cadence_gating c4cfg {} 59 c4env []
      (async_update_data c4cfg {} 59 c4env).1 (c4data 59) (c4p 59) rfl
      (by with_unfolding_all rfl)).1
    rw [h]
    with_unfolding_all rfl
  · have h := (cadence_gating c4cfg {} 61 c4env []
      (async_update_data c4cfg {} 61 c4env).1 (c4data 61) (c4p 61) rfl
      (by with_unfolding_all rfl)).1
    rw [h]
    with_unfolding_all rfl

/-- C5: when the primary poll succeeds and the tick completes, the
published snapshot's primary dataset has exactly the connection ids the
poll returned — the SIM-slot and traffic-rate overlays only replace
records in place and never add or remove an id. -/
theorem primary_ids_preserved (cfg : CoordConfig) (st : CoordState) (now : ℚ)
    (env : TickEnv) (wan0 : List (Int × WanConnection)) (st' : CoordState)
    (data : PeplinkData) (p : Polled)
    (hwan : get_wan_status env.wan_status_resp = .ok wan0)
    (hres : async_update_data cfg st now env = (st', .ok data, p)) :
    data.wan_connections.map Prod.fst = wan0.map Prod.fst := by
  unfold async_update_data at hres
  rw [hwan] at hres
  split at hres
  case h_1 x heq => exact Except.noConfusion heq
  case h_2 x heq => exact Except.noConfusion heq
  case h_3 x heq => exact Except.noConfusion heq
  case h_4 x heq => exact Except.noConfusion heq
  case h_5 x wan1 heq =>
    injection heq with hw
    subst hw
    simp only [] at hres
    split at hres
    · exact absurd hres (by simp)
    · rename_i st2a hpoll
      split at hres
      · exact absurd hres (by simp)
      · rename_i st4a hvpn
        have hd := congrArg (fun t => (t.2.1 : Except TickErr PeplinkData)) hres
        simp only [] at hd
        injection hd with hd2
        rw [← hd2]
        simp [apply_ite (fun l : List (Int × WanConnection) => l.map Prod.fst),
              mergeTraffic_keys, enrichSimSlots_keys]

def c5env : TickEnv :=
  { c4env with wan_status_resp := .ok (.json (.obj [("stat", .str "ok"),
      ("response", .obj [("1", .obj [("name", .str "Cell")]),
                         ("7", .obj [("name", .str "Eth")]),
                         ("x", .obj []), ("2", .str "bad")])])) }

/-- The ids the concrete C5 poll returns. -/
def c5wan : List (Int × WanConnection) :=
  match get_wan_status c5env.wan_status_resp with
  | .ok m => m
  | .error _ => []

/-- The published snapshot of the concrete C5 tick. -/
def c5data : PeplinkData :=
  match (async_update_data c4cfg {} 0 c5env).2.1 with
  | .ok d => d
  | .error _ => ⟨[], [], none, none, none, none, [], [], none, true, true, true⟩

/-- C5 witness: on a concrete poll returning ids 1 and 7 (two malformed
entries dropped), the snapshot's primary ids are exactly those. -/
theorem primary_ids_preserved_witness :
    c5data.wan_connections.map Prod.fst = c5wan.map Prod.fst :=
  primary_ids_preserved c4cfg {} 0 c5env c5wan
    (async_update_data c4cfg {} 0 c5env).1 c5data
    ((async_update_data c4cfg {} 0 c5env).2.2) rfl
    (by with_unfolding_all rfl)

/-! ## C1 helper lemmas: selective preservation through `_poll_diagnostics` -/

theorem diag_step_sysdiag_firmware (st : CoordState) (env : TickEnv) :
    (diag_step_sysdiag st env).firmware_version = st.firmware_version := by
  obtain ⟨d, h⟩ := diag_step_sysdiag_frame st env
  rw [h]

theorem diag_step_device_firmware (st : CoordState) (env : TickEnv) :
    (diag_step_device st env).firmware_version = st.firmware_version := by
  obtain ⟨d, h⟩ := diag_step_device_frame st env
  rw [h]

theorem diag_step_clients_firmware (st : CoordState) (env : TickEnv) :
    (diag_step_clients st env).firmware_version = st.firmware_version := by
  obtain ⟨d, h⟩ := diag_step_clients_frame st env
  rw [h]

theorem diag_step_traffic_firmware (st : CoordState) (env : TickEnv) :
    (diag_step_traffic st env).firmware_version = st.firmware_version := by
  obtain ⟨d, h⟩ := diag_step_traffic_frame st env
  rw [h]

theorem diag_step_sysdiag_clients (st : CoordState) (env : TickEnv) :
    (diag_step_sysdiag st env).connected_devices = st.connected_devices := by
  obtain ⟨d, h⟩ := diag_step_sysdiag_frame st env
  rw [h]

theorem diag_step_device_clients (st : CoordState) (env : TickEnv) :
    (diag_step_device st env).connected_devices = st.connected_devices := by
  obtain ⟨d, h⟩ := diag_step_device_frame st env
  rw [h]

theorem diag_step_firmware_clients (st : CoordState) (env : TickEnv) :
    (diag_step_firmware st env).connected_devices = st.connected_devices := by
  obtain ⟨d, h⟩ := diag_step_firmware_frame st env
  rw [h]

theorem diag_step_traffic_clients (st : CoordState) (env : TickEnv) :
    (diag_step_traffic st env).connected_devices = st.connected_devices := by
  obtain ⟨d, h⟩ := diag_step_traffic_frame st env
  rw [h]

/-- A failing firmware fetch leaves the firmware step a no-op. -/
theorem diag_step_firmware_err {env : TickEnv} {e : PErr}
    (he : get_firmware_version env.firmware_resp = .error e) (st : CoordState) :
    (diag_step_firmware st env).firmware_version = st.firmware_version := by
  unfold diag_step_firmware
  split
  · rw [he]
  · rfl

/-- A failing client-count fetch leaves the clients step a no-op. -/
theorem diag_step_clients_err {env : TickEnv} {e : PErr}
    (he : get_connected_devices_count env.clients_resp = .error e) (st : CoordState) :
    (diag_step_clients st env).connected_devices = st.connected_devices := by
  unfold diag_step_clients
  rw [he]

/-- With a failing firmware fetch, `_poll_diagnostics` keeps the cached
firmware version. -/
theorem poll_diagnostics_firmware_err {env : TickEnv} {e : PErr}
    (he : get_firmware_version env.firmware_resp = .error e) (st : CoordState) :
    (poll_diagnostics st env).firmware_version = st.firmware_version := by
  unfold poll_diagnostics
  rw [diag_step_traffic_firmware, diag_step_clients_firmware,
      diag_step_firmware_err he, diag_step_device_firmware, diag_step_sysdiag_firmware]

/-- With a failing client-count fetch, `_poll_diagnostics` keeps the
cached client count. -/
theorem poll_diagnostics_clients_err {env : TickEnv} {e : PErr}
    (he : get_connected_devices_count env.clients_resp = .error e) (st : CoordState) :
    (poll_diagnostics st env).connected_devices = st.connected_devices := by
  unfold poll_diagnostics
  rw [diag_step_traffic_clients, diag_step_clients_err he,
      diag_step_firmware_clients, diag_step_device_clients, diag_step_sysdiag_clients]

/-- A tick (whatever its outcome) with a failing usage fetch leaves the
usage cache unchanged. -/
theorem tick_preserves_usage (cfg : CoordConfig) (st : CoordState) (now : ℚ)
    (env : TickEnv) (e : PErr) (he : get_wan_usage env.usage_resp = .error e) :
    ((async_update_data cfg st now env).1).wan_usage = st.wan_usage := by
  unfold async_update_data
  rcases hws : get_wan_status env.wan_status_resp with e0 | wan0
  · cases e0 <;> rfl
  · simp only []
    split
    · rfl
    · rename_i st2a hpoll
      have h2 := usage_step_err he hpoll
      subst h2
      split
      · simp [apply_ite CoordState.wan_usage, poll_diagnostics_wan_usage]
      · rename_i st4a hvpn
        obtain ⟨vv, hfr⟩ := vpn_step_frame hvpn
        simp [hfr, apply_ite CoordState.wan_usage, poll_diagnostics_wan_usage,
              poll_gps_wan_usage]

/-- A tick with a failing firmware fetch leaves the firmware cache
unchanged. -/
theorem tick_preserves_firmware (cfg : CoordConfig) (st : CoordState) (now : ℚ)
    (env : TickEnv) (e : PErr)
    (he : get_firmware_version env.firmware_resp = .error e) :
    ((async_update_data cfg st now env).1).firmware_version = st.firmware_version := by
  unfold async_update_data
  rcases hws : get_wan_status env.wan_status_resp with e0 | wan0
  · cases e0 <;> rfl
  · simp only []
    split
    · rfl
    · rename_i st2a hpoll
      obtain ⟨uv, hfr2⟩ := usage_step_frame hpoll
      split
      · simp [hfr2, apply_ite CoordState.firmware_version,
              poll_diagnostics_firmware_err he]
      · rename_i st4a hvpn
        obtain ⟨vv, hfr4⟩ := vpn_step_frame hvpn
        simp [hfr2, hfr4, apply_ite CoordState.firmware_version,
              poll_diagnostics_firmware_err he, poll_gps_firmware]

/-- A tick with a failing client-count fetch leaves the client-count
cache unchanged. -/
theorem tick_preserves_clients (cfg : CoordConfig) (st : CoordState) (now : ℚ)
    (env : TickEnv) (e : PErr)
    (he : get_connected_devices_count env.clients_resp = .error e) :
    ((async_update_data cfg st now env).1).connected_devices = st.connected_devices := by
  unfold async_update_data
  rcases hws : get_wan_status env.wan_status_resp with e0 | wan0
  · cases e0 <;> rfl
  · simp only []
    split
    · rfl
    · rename_i st2a hpoll
      obtain ⟨uv, hfr2⟩ := usage_step_frame hpoll
      split
      · simp [hfr2, apply_ite CoordState.connected_devices,
              poll_diagnostics_clients_err he]
      · rename_i st4a hvpn
        obtain ⟨vv, hfr4⟩ := vpn_step_frame hvpn
        simp [hfr2, hfr4, apply_ite CoordState.connected_devices,
              poll_diagnostics_clients_err he, poll_gps_clients]

/-- A tick with a failing VPN fetch leaves the VPN cache unchanged. -/
theorem tick_preserves_vpn (cfg : CoordConfig) (st : CoordState) (now : ℚ)
    (env : TickEnv) (e : PErr)
    (he : get_pep_vpn_profiles env.vpn_resp = .error e) :
    ((async_update_data cfg st now env).1).vpn_profiles = st.vpn_profiles := by
  unfold async_update_data
  rcases hws : get_wan_status env.wan_status_resp with e0 | wan0
  · cases e0 <;> rfl
  · simp only []
    split
    · rfl
    · rename_i st2a hpoll
      obtain ⟨uv, hfr2⟩ := usage_step_frame hpoll
      split
      · simp [hfr2, apply_ite CoordState.vpn_profiles, poll_diagnostics_vpn_profiles]
      · rename_i st4a hvpn
        have h4 := vpn_step_err he hvpn
        subst h4
        simp [hfr2, apply_ite CoordState.vpn_profiles, poll_diagnostics_vpn_profiles,
              poll_gps_vpn_profiles]

/-- A run of ticks in which every usage fetch fails never changes the
usage cache. -/
theorem run_ticks_preserves_usage (cfg : CoordConfig) (l : List (ℚ × TickEnv)) :
    ∀ st : CoordState,
      (∀ t ∈ l, ∃ e, get_wan_usage t.2.usage_resp = .error e) →
      (run_ticks cfg st l).wan_usage = st.wan_usage := by
  induction l with
  | nil => intro st _; rfl
  | cons t rest ih =>
      intro st hall
      obtain ⟨e, he⟩ := hall t (List.mem_cons_self t rest)
      have hstep := tick_preserves_usage cfg st t.1 t.2 e he
      calc (run_ticks cfg st (t :: rest)).wan_usage
          = (run_ticks cfg (async_update_data cfg st t.1 t.2).1 rest).wan_usage := rfl
        _ = ((async_update_data cfg st t.1 t.2).1).wan_usage :=
            ih _ (fun t2 ht2 => hall t2 (List.mem_cons_of_mem _ ht2))
        _ = st.wan_usage := hstep

def c1cfg : CoordConfig := ⟨0, 0, false, 0, false, 0⟩

def c1st : CoordState :=
  { diagnostics := some ⟨some 50, some 90, []⟩, traffic_stats := [(1, (5, 1))] }

def c1env : TickEnv :=
  { wan_status_resp := .ok (.json (.obj [("stat", .str "ok"), ("response", .obj [])])),
    is_auth := true,
    usage_resp := .error .connErr, diag_resp := .error .connErr,
    device_resp := .error .connErr, firmware_resp := .error .connErr,
    clients_resp := .error .connErr, traffic_resp := .error .connErr,
    vpn_resp := .error .connErr, location_resp := .error .connErr }

/-- C1 counterexample: a tick whose diagnostics-endpoint transport fails
with a connection error does NOT keep the previously cached diagnostics —
`get_system_diagnostics` swallows the error and returns the empty
sentinel, which replaces the cache (and the traffic-rate cache is
likewise replaced by the empty map). -/
theorem slow_cache_counterexample :
    c1st.diagnostics = some ⟨some 50, some 90, []⟩ ∧
    ((async_update_data c1cfg c1st 0 c1env).1).diagnostics = some emptyDiagnostics ∧
    ¬ ((async_update_data c1cfg c1st 0 c1env).1).diagnostics = c1st.diagnostics ∧
    ((async_update_data c1cfg c1st 0 c1env).1).traffic_stats = [] ∧
    ¬ c1st.traffic_stats = [] := by
  have h1 : ((async_update_data c1cfg c1st 0 c1env).1).diagnostics =
      some emptyDiagnostics := by with_unfolding_all rfl
  have h2 : ((async_update_data c1cfg c1st 0 c1env).1).traffic_stats = [] := by
    with_unfolding_all rfl
  refine ⟨rfl, h1, ?_, h2, ?_⟩
  · rw [h1]
    with_unfolding_all decide
  · with_unfolding_all decide

/-- C1 (amended): a failed refresh never clears the cached value for the
usage, firmware, client-count and VPN datasets — including after any
number of consecutive failing usage polls — but not for the diagnostics,
device-info, traffic-rate and location datasets, whose decoders swallow
connection/API errors and return empty sentinels that replace the cache
(see the counterexample). -/
theorem slow_cache_preservation :
    (∀ (cfg : CoordConfig) (st : CoordState) (now : ℚ) (env : TickEnv) (e : PErr),
        get_wan_usage env.usage_resp = .error e →
        ((async_update_data cfg st now env).1).wan_usage = st.wan_usage) ∧
    (∀ (cfg : CoordConfig) (st : CoordState) (now : ℚ) (env : TickEnv) (e : PErr),
        get_firmware_version env.firmware_resp = .error e →
        ((async_update_data cfg st now env).1).firmware_version = st.firmware_version) ∧
    (∀ (cfg : CoordConfig) (st : CoordState) (now : ℚ) (env : TickEnv) (e : PErr),
        get_connected_devices_count env.clients_resp = .error e →
        ((async_update_data cfg st now env).1).connected_devices = st.connected_devices) ∧
    (∀ (cfg : CoordConfig) (st : CoordState) (now : ℚ) (env : TickEnv) (e : PErr),
        get_pep_vpn_profiles env.vpn_resp = .error e →
        ((async_update_data cfg st now env).1).vpn_profiles = st.vpn_profiles) ∧
    (∀ (cfg : CoordConfig) (l : List (ℚ × TickEnv)) (st : CoordState),
        (∀ t ∈ l, ∃ e, get_wan_usage t.2.usage_resp = .error e) →
        (run_ticks cfg st l).wan_usage = st.wan_usage) :=
  ⟨tick_preserves_usage, tick_preserves_firmware, tick_preserves_clients,
   tick_preserves_vpn, fun cfg l st h => run_ticks_preserves_usage cfg l st h⟩

/-- C1 witness: the amended preservation applied to a concrete state and
a tick environment whose usage/firmware/clients/VPN fetches all fail,
plus a two-tick run of failing usage polls. -/
theorem slow_cache_preservation_witness :
    ((async_update_data c1cfg c1st 0 c1env).1).wan_usage = c1st.wan_usage ∧
    ((async_update_data c1cfg c1st 0 c1env).1).firmware_version = c1st.firmware_version ∧
    ((async_update_data c1cfg c1st 0 c1env).1).connected_devices = c1st.connected_devices ∧
    ((async_update_data c1cfg c1st 0 c1env).1).vpn_profiles = c1st.vpn_profiles ∧
    (run_ticks c1cfg c1st [(0, c1env), (1, c1env)]).wan_usage = c1st.wan_usage :=
  ⟨slow_cache_preservation.1 c1cfg c1st 0 c1env .connErr rfl,
   slow_cache_preservation.2.1 c1cfg c1st 0 c1env .connErr rfl,
   slow_cache_preservation.2.2.1 c1cfg c1st 0 c1env .connErr rfl,
   slow_cache_preservation.2.2.2.1 c1cfg c1st 0 c1env .connErr rfl,
   slow_cache_preservation.2.2.2.2 c1cfg [(0, c1env), (1, c1env)] c1st
     (by
       intro t ht
       rcases List.mem_cons.mp ht with rfl | ht2
       · exact ⟨.connErr, rfl⟩
       · rcases List.mem_cons.mp ht2 with rfl | ht3
         · exact ⟨.connErr, rfl⟩
         · exact absurd ht3 (List.not_mem_nil t))⟩
